import Mathlib

/-!
Verification of the go-trader strategy/risk/execution core.

Shallow embedding of the Python sources into Lean 4:
* `core/risk_manager.py`            — spot `RiskManager` (namespace `SpotRisk`)
* `shared_strategies/options/risk.py` — `OptionsRiskManager` (namespace `OptRisk`)
* `platforms/deribit/adapter.py`    — paper options adapter (namespace `Deribit`)
* `archive/exchange_adapter.py`     — spot paper adapter (namespace `Paper`)
* `shared_tools/pricing.py`         — Black-Scholes kernel (namespace `Pricing`)
* `shared_scripts/check_options.py` — trade scorer (namespace `CheckOptions`)
* `shared_strategies/spot/strategies.py` — signal engine (namespace `Strategies`)

Numbers are modelled as exact rationals (`ℚ`); the Python floats carry no
overflow semantics that the verified claims depend on.  Wall-clock time is a
rational timestamp; the UTC day string used by `reset_daily` is modelled as an
integer day index.  Transcendental float routines (`math.sqrt`, `math.erf`,
...) are passed in as function parameters where a definition needs them:
the verified claims never evaluate those branches.
-/

namespace SpotRisk

/-- Clock handed to the risk manager: `day` models `utcnow().strftime("%Y-%m-%d")`
and `t` models the timestamp (in minutes) used for circuit-breaker arithmetic. -/
structure Clock where
  day : ℤ
  t : ℚ
deriving DecidableEq, Repr

/-- `RiskConfig` from core/risk_manager.py (defaults reproduced). -/
structure RiskConfig where
  max_position_size_pct : ℚ := 20
  max_position_size_usd : ℚ := 5000
  max_num_positions : ℕ := 5
  max_total_exposure_pct : ℚ := 80
  max_single_asset_pct : ℚ := 30
  daily_loss_limit_pct : ℚ := 5
  max_drawdown_pct : ℚ := 15
  per_trade_stop_loss_pct : ℚ := 3
  max_consecutive_losses : ℕ := 5
  cooldown_after_circuit_break_min : ℚ := 60
deriving DecidableEq, Repr

/-- Mutable state of `RiskManager`; `day` models `_day_str`, `trade_log`
keeps the recorded PnLs. -/
structure RMState where
  peak_portfolio_value : ℚ := 0
  daily_start_value : ℚ := 0
  daily_pnl : ℚ := 0
  consecutive_losses : ℕ := 0
  circuit_break_active : Bool := false
  circuit_break_until : Option ℚ := none
  day : ℤ := -1
  trade_log : List ℚ := []
deriving DecidableEq, Repr

/-- Denial reasons of `RiskManager.check_can_trade`, one per `return` site. -/
inductive Reason where
  | ok
  | circuitBreaker
  | consecutiveLosses
  | dailyLoss
  | drawdown
  | positionTooLarge
  | maxPositions
  | totalExposure
deriving DecidableEq, Repr

/-- Result record `{allowed, reason}` of a risk check. -/
structure CheckResult where
  allowed : Bool
  reason : Reason
deriving DecidableEq, Repr

/-- `RiskManager.reset_daily`: on a UTC day change, restart the daily
bookkeeping and fold the portfolio value into the peak. -/
def resetDaily (s : RMState) (clock : Clock) (portfolio_value : ℚ) : RMState :=
  if clock.day ≠ s.day then
    { s with
      day := clock.day
      daily_start_value := portfolio_value
      daily_pnl := 0
      peak_portfolio_value :=
        if portfolio_value > s.peak_portfolio_value then portfolio_value
        else s.peak_portfolio_value }
  else s

/-- `RiskManager.update_peak`. -/
def updatePeak (s : RMState) (portfolio_value : ℚ) : RMState :=
  if portfolio_value > s.peak_portfolio_value then
    { s with peak_portfolio_value := portfolio_value }
  else s

/-- `RiskManager.record_trade_result`. -/
def recordTradeResult (s : RMState) (pnl : ℚ) : RMState :=
  { s with
    daily_pnl := s.daily_pnl + pnl
    consecutive_losses := if pnl < 0 then s.consecutive_losses + 1 else 0
    trade_log := s.trade_log ++ [pnl] }

/-- `RiskManager._trigger_circuit_break`. -/
def triggerCircuitBreak (cfg : RiskConfig) (s : RMState) (now : ℚ) : RMState :=
  { s with
    circuit_break_active := true
    circuit_break_until := some (now + cfg.cooldown_after_circuit_break_min) }

/-- Base-asset extraction `symbol.split("/")[0]`: the prefix up to the first
slash (character-level model of `str.split`). -/
def baseAsset (symbol : String) : String :=
  (symbol.toList.takeWhile (fun c => c ≠ '/')).asString

/-- Truth value of `self.circuit_break_until and now < self.circuit_break_until`. -/
def stillCooling (until? : Option ℚ) (now : ℚ) : Bool :=
  match until? with
  | some u => now < u
  | none => false

/-- `RiskManager.check_can_trade`: the rules in source order, first failure
short-circuiting.  `positions` models the `current_positions` dict as an
association list (unique keys). -/
def checkCanTrade (cfg : RiskConfig) (s : RMState) (clock : Clock)
    (portfolio_value : ℚ) (proposed_trade_usd : ℚ) (symbol : String)
    (positions : List (String × ℚ)) : CheckResult × RMState :=
  let s0 := resetDaily s clock portfolio_value
  -- Rule 1: circuit breaker cooldown
  if s0.circuit_break_active ∧ stillCooling s0.circuit_break_until clock.t then
    (⟨false, .circuitBreaker⟩, s0)
  else
    -- cooldown elapsed (or no deadline): clear flag and loss counter
    let s1 := if s0.circuit_break_active then
        { s0 with circuit_break_active := false, consecutive_losses := 0 }
      else s0
    -- Rule 2: consecutive losses
    if cfg.max_consecutive_losses ≤ s1.consecutive_losses then
      (⟨false, .consecutiveLosses⟩, triggerCircuitBreak cfg s1 clock.t)
    -- Rule 3: daily loss limit
    else if s1.daily_start_value > 0 ∧
        (s1.daily_pnl / s1.daily_start_value) * 100 ≤ -cfg.daily_loss_limit_pct then
      (⟨false, .dailyLoss⟩, triggerCircuitBreak cfg s1 clock.t)
    -- Rule 4: max drawdown kill switch
    else if s1.peak_portfolio_value > 0 ∧
        ((portfolio_value - s1.peak_portfolio_value) / s1.peak_portfolio_value) * 100
          ≤ -cfg.max_drawdown_pct then
      (⟨false, .drawdown⟩, triggerCircuitBreak cfg s1 clock.t)
    -- Rule 5: per-trade position size cap
    else if proposed_trade_usd > 0 ∧
        proposed_trade_usd >
          min (portfolio_value * (cfg.max_position_size_pct / 100))
            cfg.max_position_size_usd then
      (⟨false, .positionTooLarge⟩, s1)
    else
      -- Rule 6: number of positions (only for a new, nonempty symbol)
      let active := positions.filter (fun kv => kv.2 > 0)
      if cfg.max_num_positions ≤ active.length ∧ symbol ≠ "" ∧
          ¬ (active.any (fun kv => kv.1 = baseAsset symbol)) = true then
        (⟨false, .maxPositions⟩, s1)
      -- Rule 7: total exposure
      else if positions ≠ [] ∧ portfolio_value > 0 ∧
          ((positions.map (·.2)).sum / portfolio_value) * 100 +
            proposed_trade_usd / portfolio_value * 100 > cfg.max_total_exposure_pct then
        (⟨false, .totalExposure⟩, s1)
      else
        (⟨true, .ok⟩, s1)

end SpotRisk

namespace Deribit

/-- Option kind (`OptionType` enum). -/
inductive OptionType where
  | call
  | put
deriving DecidableEq, Repr

/-- Order side (`OptionSide` enum). -/
inductive OptionSide where
  | buy
  | sell
deriving DecidableEq, Repr

/-- Option Greeks record from platforms/deribit/adapter.py. -/
structure Greeks where
  delta : ℚ := 0
  gamma : ℚ := 0
  theta : ℚ := 0
  vega : ℚ := 0
  iv : ℚ := 0
deriving DecidableEq, Repr

/-- A single option contract snapshot.  `expiry` is a UTC timestamp in days
and the quote fields are those filled in by `enrich_contract`. -/
structure OptionContract where
  symbol : String
  underlying : String
  strike : ℚ
  expiry : ℚ
  option_type : OptionType
  bid : ℚ := 0
  ask : ℚ := 0
  last : ℚ := 0
  volume : ℚ := 0
  open_interest : ℚ := 0
  greeks : Greeks := {}
  spot_price : ℚ := 0
deriving DecidableEq, Repr

/-- `OptionContract.mid_price`: `(bid+ask)/2` when both sides quote, else
`last or 0.0` (numerically `last`). -/
def midPrice (c : OptionContract) : ℚ :=
  if c.bid > 0 ∧ c.ask > 0 then (c.bid + c.ask) / 2 else c.last

/-- An open paper position.  `id` models the `opt_<n>` order-id counter. -/
structure OptionPosition where
  id : ℕ
  symbol : String
  underlying : String
  strike : ℚ
  expiry : ℚ
  option_type : OptionType
  side : OptionSide
  quantity : ℚ
  entry_price : ℚ
  entry_price_usd : ℚ
  entry_time : ℚ
  entry_spot : ℚ
  current_price : ℚ := 0
  current_spot : ℚ := 0
  greeks : Greeks := {}
  leg_group : Option String := none
deriving DecidableEq, Repr

/-- `OptionPosition.is_expired ⇔ utcnow() ≥ expiry`. -/
def isExpired (now : ℚ) (p : OptionPosition) : Prop :=
  p.expiry ≤ now

instance (now : ℚ) (p : OptionPosition) : Decidable (isExpired now p) := by
  unfold isExpired; infer_instance

/-- Entries of `self._trades` reached by the verified claims. -/
inductive TradeRecord where
  | buy (position_id : ℕ) (symbol : String) (price price_usd quantity commission : ℚ)
  | sell (position_id : ℕ) (symbol : String) (price price_usd quantity commission : ℚ)
  | close (position_id : ℕ) (symbol : String) (close_price pnl_usd commission : ℚ)
  | exercised (position_id : ℕ) (symbol : String) (settlement_usd intrinsic : ℚ)
  | expired (position_id : ℕ) (symbol : String)
deriving DecidableEq, Repr

/-- Paper-trading state of `DeribitOptionsAdapter`: `_cash_usd`,
`_positions` (insertion-ordered dict), `_trades`, `_order_counter`. -/
structure AdapterState where
  cash : ℚ := 10000
  positions : List OptionPosition := []
  trades : List TradeRecord := []
  order_counter : ℕ := 0
deriving DecidableEq, Repr

/-- Deribit taker commission rate `0.0003` used by the paper executor. -/
def takerFee : ℚ := 3 / 10000

/-- Fill price used by `buy_option`: the ask, falling back to the mid. -/
def buyQuote (c : OptionContract) : ℚ :=
  if c.ask > 0 then c.ask else midPrice c

/-- Fill price used by `sell_option`: the bid, falling back to the mid. -/
def sellQuote (c : OptionContract) : ℚ :=
  if c.bid > 0 then c.bid else midPrice c

/-- `buy_option` (paper mode).  The contract is taken post-`enrich_contract`:
live quote fetching is external market data.  `now` models `utcnow()`. -/
def buyOption (st : AdapterState) (c : OptionContract) (quantity : ℚ)
    (leg_group : Option String) (now : ℚ) :
    Option OptionPosition × AdapterState :=
  let price := buyQuote c
  if price ≤ 0 then (none, st)
  else
    let cost_usd := price * c.spot_price * quantity
    let commission := cost_usd * takerFee
    if st.cash < cost_usd + commission then (none, st)
    else
      let pid := st.order_counter + 1
      let pos : OptionPosition :=
        { id := pid
          symbol := c.symbol
          underlying := c.underlying
          strike := c.strike
          expiry := c.expiry
          option_type := c.option_type
          side := .buy
          quantity := quantity
          entry_price := price
          entry_price_usd := price * c.spot_price
          entry_time := now
          entry_spot := c.spot_price
          current_price := price
          current_spot := c.spot_price
          greeks := c.greeks
          leg_group := leg_group }
      (some pos,
        { st with
          cash := st.cash - (cost_usd + commission)
          order_counter := pid
          positions := st.positions ++ [pos]
          trades := st.trades ++
            [.buy pid c.symbol price cost_usd quantity commission] })

/-- `sell_option` (paper mode): collects the premium; note there is no cash
or margin check on this path. -/
def sellOption (st : AdapterState) (c : OptionContract) (quantity : ℚ)
    (leg_group : Option String) (now : ℚ) :
    Option OptionPosition × AdapterState :=
  let price := sellQuote c
  if price ≤ 0 then (none, st)
  else
    let premium_usd := price * c.spot_price * quantity
    let commission := premium_usd * takerFee
    let pid := st.order_counter + 1
    let pos : OptionPosition :=
      { id := pid
        symbol := c.symbol
        underlying := c.underlying
        strike := c.strike
        expiry := c.expiry
        option_type := c.option_type
        side := .sell
        quantity := quantity
        entry_price := price
        entry_price_usd := price * c.spot_price
        entry_time := now
        entry_spot := c.spot_price
        current_price := price
        current_spot := c.spot_price
        greeks := c.greeks
        leg_group := leg_group }
    (some pos,
      { st with
        cash := st.cash + (premium_usd - commission)
        order_counter := pid
        positions := st.positions ++ [pos]
        trades := st.trades ++
          [.sell pid c.symbol price premium_usd quantity commission] })

/-- Intrinsic value of a position at a given spot. -/
def intrinsicAt (spot : ℚ) (p : OptionPosition) : ℚ :=
  if p.option_type = OptionType.call then max (spot - p.strike) 0
  else max (p.strike - spot) 0

/-- Settlement of one expired position inside `handle_expiries`: cash-settle
intrinsic (credit long / debit short), append the `EXERCISED` or `EXPIRED`
record, and delete the position from the map. -/
def settleExpired (spotOf : String → ℚ) (st : AdapterState)
    (p : OptionPosition) : AdapterState :=
  let spot := spotOf p.underlying
  let intrinsic := intrinsicAt spot p
  let st1 :=
    if intrinsic > 0 then
      let settlement_usd := intrinsic * p.quantity
      { st with
        cash := if p.side = OptionSide.buy then st.cash + settlement_usd
                else st.cash - settlement_usd
        trades := st.trades ++
          [TradeRecord.exercised p.id p.symbol settlement_usd intrinsic] }
    else
      { st with trades := st.trades ++ [TradeRecord.expired p.id p.symbol] }
  { st1 with positions := st1.positions.filter (fun q => q.id ≠ p.id) }

/-- `handle_expiries`: the expired ids are collected first, then each is
settled and deleted.  `spotOf` models `get_spot_price` per underlying. -/
def handleExpiries (spotOf : String → ℚ) (now : ℚ) (st : AdapterState) :
    AdapterState :=
  let expired := st.positions.filter (fun p => decide (isExpired now p))
  expired.foldl (settleExpired spotOf) st

/-- Net cash effect of settling one expired position: `+I·q` for a long,
`−I·q` for a short when the intrinsic `I` is positive, zero otherwise. -/
def settleCashOf (spotOf : String → ℚ) (p : OptionPosition) : ℚ :=
  let intrinsic := intrinsicAt (spotOf p.underlying) p
  if intrinsic > 0 then
    if p.side = OptionSide.buy then intrinsic * p.quantity
    else -(intrinsic * p.quantity)
  else 0

/-- Trade record emitted for one expired position: `EXERCISED` with the
settlement amount when in the money, `EXPIRED` otherwise. -/
def expiryRecordOf (spotOf : String → ℚ) (p : OptionPosition) : TradeRecord :=
  let intrinsic := intrinsicAt (spotOf p.underlying) p
  if intrinsic > 0 then .exercised p.id p.symbol (intrinsic * p.quantity) intrinsic
  else .expired p.id p.symbol

/-- `get_positions` returns a copy of the map (here: the list itself). -/
def getPositions (st : AdapterState) : List OptionPosition :=
  st.positions

/-- `get_portfolio_value`: cash + long marks − short marks. -/
def getPortfolioValue (st : AdapterState) : ℚ :=
  st.positions.foldl
    (fun total pos =>
      if pos.side = OptionSide.buy then
        total + pos.current_price * pos.current_spot * pos.quantity
      else
        total - pos.current_price * pos.current_spot * pos.quantity)
    st.cash

/-- `get_premium_at_risk`: entry premium summed over long positions only. -/
def getPremiumAtRisk (st : AdapterState) : ℚ :=
  st.positions.foldl
    (fun total pos =>
      if pos.side = OptionSide.buy then total + pos.entry_price_usd * pos.quantity
      else total)
    0

/-- Python `min(xs, key=f)` on a possibly-empty list: first element with the
minimal key, `none` when empty. -/
def pyMinBy (f : OptionContract → ℚ) : List OptionContract → Option OptionContract
  | [] => none
  | x :: xs => some (xs.foldl (fun best c => if f c < f best then c else best) x)

/-- Leg group tag `f"straddle_{counter+1}"` etc. -/
def groupTag (name : String) (st : AdapterState) : String :=
  name ++ "_" ++ toString (st.order_counter + 1)

/-- The leg executor chosen by `side` in the multi-leg builders. -/
def legFn (side : OptionSide) : AdapterState → OptionContract → ℚ →
    Option String → ℚ → Option OptionPosition × AdapterState :=
  match side with
  | .buy => buyOption
  | .sell => sellOption

/-- `open_straddle` from the point where the ATM call and put have been
selected by `find_options` (market data, passed in as `callC`/`putC`).
Both legs are filled sequentially; a failed leg makes the builder return
`none` but the already-filled leg is left in place. -/
def openStraddleLegs (st : AdapterState) (callC putC : OptionContract)
    (side : OptionSide) (quantity : ℚ) (now : ℚ) :
    Option String × AdapterState :=
  let group := groupTag "straddle" st
  let r1 := legFn side st callC quantity (some group) now
  let r2 := legFn side r1.2 putC quantity (some group) now
  if r1.1.isSome ∧ r2.1.isSome then (some group, r2.2) else (none, r2.2)

/-- `open_strangle` from the point where the OTM candidate lists have been
fetched: the code picks the strikes closest to `spot·(1±otm_pct)` with
Python `min(…, key=…)` and fills the two legs sequentially. -/
def openStrangleLegs (st : AdapterState) (calls puts : List OptionContract)
    (spot otm_pct : ℚ) (side : OptionSide) (quantity : ℚ) (now : ℚ) :
    Option String × AdapterState :=
  if calls = [] ∨ puts = [] then (none, st)
  else
    match pyMinBy (fun c => |c.strike - spot * (1 + otm_pct)|) calls,
          pyMinBy (fun c => |c.strike - spot * (1 - otm_pct)|) puts with
    | some callC, some putC =>
        let group := groupTag "strangle" st
        let r1 := legFn side st callC quantity (some group) now
        let r2 := legFn side r1.2 putC quantity (some group) now
        if r1.1.isSome ∧ r2.1.isSome then (some group, r2.2) else (none, r2.2)
    | _, _ => (none, st)

end Deribit

namespace OptRisk

/-- `OptionsRiskConfig` from shared_strategies/options/risk.py (defaults
reproduced). -/
structure OptionsRiskConfig where
  max_premium_at_risk_pct : ℚ := 30
  max_single_trade_premium_pct : ℚ := 5
  max_monthly_hedge_cost_pct : ℚ := 2
  max_positions : ℕ := 10
  max_positions_per_underlying : ℕ := 5
  max_portfolio_delta : ℚ := 5
  max_portfolio_gamma : ℚ := 2
  max_portfolio_vega : ℚ := 500
  min_portfolio_delta : ℚ := -5
  max_notional_exposure_pct : ℚ := 200
  max_short_notional_pct : ℚ := 100
  max_drawdown_pct : ℚ := 20
  daily_loss_limit_pct : ℚ := 5
  per_trade_stop_loss_pct : ℚ := 30
  max_consecutive_losses : ℕ := 4
  cooldown_minutes : ℚ := 60
deriving DecidableEq, Repr

/-- Mutable state of `OptionsRiskManager`. -/
structure ORMState where
  peak_portfolio_value : ℚ := 0
  daily_start_value : ℚ := 0
  daily_pnl : ℚ := 0
  consecutive_losses : ℕ := 0
  circuit_break_active : Bool := false
  circuit_break_until : Option ℚ := none
  monthly_hedge_spend : ℚ := 0
  day : ℤ := -1
  trade_log : List ℚ := []
deriving DecidableEq, Repr

/-- Denial reasons of `OptionsRiskManager.check_can_trade`, one per `return`
site. -/
inductive OReason where
  | ok
  | circuitBreaker
  | consecutiveLosses
  | dailyLoss
  | drawdown
  | maxPositions
  | perUnderlying
  | singleTradePremium
  | premiumAtRisk
deriving DecidableEq, Repr

/-- Result record of an options risk check. -/
structure OCheckResult where
  allowed : Bool
  reason : OReason
deriving DecidableEq, Repr

/-- `OptionsRiskManager.reset_daily` (no peak update in this variant). -/
def oResetDaily (s : ORMState) (clock : SpotRisk.Clock) (portfolio_value : ℚ) :
    ORMState :=
  if clock.day ≠ s.day then
    { s with
      day := clock.day
      daily_start_value := portfolio_value
      daily_pnl := 0 }
  else s

/-- `OptionsRiskManager._trigger_circuit_break`. -/
def oTriggerCircuitBreak (cfg : OptionsRiskConfig) (s : ORMState) (now : ℚ) :
    ORMState :=
  { s with
    circuit_break_active := true
    circuit_break_until := some (now + cfg.cooldown_minutes) }

/-- `OptionsRiskManager.record_trade_result`. -/
def oRecordTradeResult (s : ORMState) (pnl : ℚ) : ORMState :=
  { s with
    daily_pnl := s.daily_pnl + pnl
    consecutive_losses := if pnl < 0 then s.consecutive_losses + 1 else 0
    trade_log := s.trade_log ++ [pnl] }

/-- `OptionsRiskManager.check_can_trade`: rules in source order.  The
portfolio value, positions and premium-at-risk are read off the adapter
state.  Note that unlike the spot variant, the daily-loss and drawdown
rules deny without calling `_trigger_circuit_break`. -/
def oCheckCanTrade (cfg : OptionsRiskConfig) (s : ORMState)
    (adapter : Deribit.AdapterState) (clock : SpotRisk.Clock)
    (proposed_premium_usd : ℚ) (proposed_side : Deribit.OptionSide)
    (underlying : String) : OCheckResult × ORMState :=
  let portfolio_value := Deribit.getPortfolioValue adapter
  let s0 := oResetDaily s clock portfolio_value
  -- Circuit breaker
  if s0.circuit_break_active ∧ SpotRisk.stillCooling s0.circuit_break_until clock.t then
    (⟨false, .circuitBreaker⟩, s0)
  else
    let s1 := if s0.circuit_break_active then
        { s0 with circuit_break_active := false, consecutive_losses := 0 }
      else s0
    -- Consecutive losses
    if cfg.max_consecutive_losses ≤ s1.consecutive_losses then
      (⟨false, .consecutiveLosses⟩, oTriggerCircuitBreak cfg s1 clock.t)
    -- Daily loss limit: denies, does not trigger the breaker
    else if s1.daily_start_value > 0 ∧
        (s1.daily_pnl / s1.daily_start_value) * 100 ≤ -cfg.daily_loss_limit_pct then
      (⟨false, .dailyLoss⟩, s1)
    -- Max drawdown: denies, does not trigger the breaker
    else if s1.peak_portfolio_value > 0 ∧
        ((portfolio_value - s1.peak_portfolio_value) / s1.peak_portfolio_value) * 100
          ≤ -cfg.max_drawdown_pct then
      (⟨false, .drawdown⟩, s1)
    else
      -- Position count
      let positions := Deribit.getPositions adapter
      if cfg.max_positions ≤ positions.length then
        (⟨false, .maxPositions⟩, s1)
      -- Per-underlying limit
      else if underlying ≠ "" ∧
          cfg.max_positions_per_underlying ≤
            (positions.filter (fun p => p.underlying = underlying)).length then
        (⟨false, .perUnderlying⟩, s1)
      -- Single trade premium limit
      else if proposed_premium_usd > 0 ∧ portfolio_value > 0 ∧
          (proposed_premium_usd / portfolio_value) * 100 >
            cfg.max_single_trade_premium_pct then
        (⟨false, .singleTradePremium⟩, s1)
      -- Total premium at risk (long side only)
      else if proposed_side = Deribit.OptionSide.buy ∧ portfolio_value > 0 ∧
          ((Deribit.getPremiumAtRisk adapter + proposed_premium_usd) /
            portfolio_value) * 100 > cfg.max_premium_at_risk_pct then
        (⟨false, .premiumAtRisk⟩, s1)
      else
        (⟨true, .ok⟩, s1)

end OptRisk

namespace Paper

/-- Order sides of archive/exchange_adapter.py. -/
inductive OrderSide where
  | buy
  | sell
deriving DecidableEq, Repr

/-- Order types of archive/exchange_adapter.py. -/
inductive OrderType where
  | market
  | limit
  | stop_loss
  | stop_limit
deriving DecidableEq, Repr

/-- Order statuses of archive/exchange_adapter.py. -/
inductive OrderStatus where
  | pending
  | open
  | filled
  | cancelled
  | failed
deriving DecidableEq, Repr

/-- An `Order`.  The class-level id counter is immaterial to the verified
claims and is omitted. -/
structure Order where
  symbol : String
  side : OrderSide
  order_type : OrderType
  quantity : ℚ
  price : Option ℚ := none
  stop_price : Option ℚ := none
  status : OrderStatus := .pending
  filled_price : Option ℚ := none
  filled_quantity : ℚ := 0
  commission : ℚ := 0
deriving DecidableEq, Repr

/-- Paper-trading state of `ExchangeAdapter`: `_paper_balance` and
`_paper_positions` are dicts read with `.get(key, 0)`, modelled as total
maps; `_paper_orders` holds resting limit/stop orders; `_paper_trades`
collects the filled orders. -/
structure PaperState where
  balance : String → ℚ
  positions : String → ℚ
  open_orders : List Order := []
  trades : List Order := []

/-- Fresh paper adapter with `initial_balance` USDT. -/
def initialPaper (initial_balance : ℚ) : PaperState :=
  { balance := fun a => if a = "USDT" then initial_balance else 0
    positions := fun _ => 0 }

/-- Pointwise dict update. -/
def updMap (f : String → ℚ) (k : String) (v : ℚ) : String → ℚ :=
  fun x => if x = k then v else f x

/-- Quote-asset extraction `symbol.split("/")[1]`: the segment between the
first and second slash (character-level model of `str.split`). -/
def quoteAsset (symbol : String) : String :=
  (((symbol.toList.dropWhile (fun c => c ≠ '/')).drop 1).takeWhile
    (fun c => c ≠ '/')).asString

/-- Paper slippage `0.0005` (5 bps) on market orders. -/
def slippage : ℚ := 5 / 10000

/-- Paper commission rate `0.001` (10 bps of notional). -/
def commissionRate : ℚ := 1 / 1000

/-- `ExchangeAdapter._execute_paper_order`.  `last?` is the result of
`get_price` (`none` models the fetch raising, which fails the order). -/
def executePaperOrder (st : PaperState) (o : Order) (last? : Option ℚ) :
    Order × PaperState :=
  match last? with
  | none => ({ o with status := .failed }, st)
  | some current_price =>
    -- determine fill price / resting behaviour
    let fill? : Option ℚ :=
      match o.order_type with
      | .market =>
          if o.side = OrderSide.buy then some (current_price * (1 + slippage))
          else some (current_price * (1 - slippage))
      | .limit =>
          match o.price with
          | none => none
          | some p =>
              if o.side = OrderSide.buy ∧ p ≥ current_price then
                some (min p current_price)
              else if o.side = OrderSide.sell ∧ p ≤ current_price then
                some (max p current_price)
              else none
      | .stop_loss => none
      | .stop_limit => none
    match fill? with
    | none =>
        -- limit without price ⇒ failed; unfavorable limit and stop orders rest
        match o.order_type with
        | .limit =>
            match o.price with
            | none => ({ o with status := .failed }, st)
            | some _ =>
                let o' := { o with status := OrderStatus.open }
                (o', { st with open_orders := st.open_orders ++ [o'] })
        | _ =>
            let o' := { o with status := OrderStatus.open }
            (o', { st with open_orders := st.open_orders ++ [o'] })
    | some fill_price =>
        let base := SpotRisk.baseAsset o.symbol
        let quote := quoteAsset o.symbol
        if o.side = OrderSide.buy then
          let cost := o.quantity * fill_price
          let commission := cost * commissionRate
          let total_cost := cost + commission
          if st.balance quote < total_cost then ({ o with status := .failed }, st)
          else
            let o' := { o with
              status := OrderStatus.filled
              filled_price := some fill_price
              filled_quantity := o.quantity
              commission := commissionRate * o.quantity * fill_price }
            (o', { st with
              balance := updMap st.balance quote (st.balance quote - total_cost)
              positions := updMap st.positions base (st.positions base + o.quantity)
              trades := st.trades ++ [o'] })
        else
          if st.positions base < o.quantity then ({ o with status := .failed }, st)
          else
            let proceeds := o.quantity * fill_price
            let commission := proceeds * commissionRate
            let o' := { o with
              status := OrderStatus.filled
              filled_price := some fill_price
              filled_quantity := o.quantity
              commission := commissionRate * o.quantity * fill_price }
            (o', { st with
              positions := updMap st.positions base (st.positions base - o.quantity)
              balance := updMap st.balance quote
                (st.balance quote + proceeds - commission)
              trades := st.trades ++ [o'] })

/-- A market order as built by `place_order(symbol, side, MARKET, qty)`. -/
def marketOrder (symbol : String) (side : OrderSide) (quantity : ℚ) : Order :=
  { symbol := symbol, side := side, order_type := .market, quantity := quantity }

end Paper

namespace Pricing

/-- Models of the transcendental float routines (`math.sqrt`, `math.log`,
`math.exp`, `math.erf`) and the float constant `math.pi`.  The verified
claims only evaluate branches that never call them. -/
structure FloatFuns where
  sqrt : ℚ → ℚ
  log : ℚ → ℚ
  exp : ℚ → ℚ
  erf : ℚ → ℚ
  pi : ℚ

/-- `norm_cdf(x) = 0.5·(1 + erf(x/√2))` from shared_tools/pricing.py. -/
def normCdf (ff : FloatFuns) (x : ℚ) : ℚ :=
  (1 / 2) * (1 + ff.erf (x / ff.sqrt 2))

/-- `norm_pdf(x) = exp(−x²/2)/√(2π)` from shared_tools/pricing.py. -/
def normPdf (ff : FloatFuns) (x : ℚ) : ℚ :=
  ff.exp (-(1 / 2) * x * x) / ff.sqrt (2 * ff.pi)

/-- Greeks dictionary returned by the shared kernel's `bs_greeks`. -/
structure GreeksDict where
  delta : ℚ
  gamma : ℚ
  theta : ℚ
  vega : ℚ
deriving DecidableEq, Repr

/-- Rounding `round(x, n)` to `n` decimal places.  (Python uses banker's
rounding at exact ties; no verified claim evaluates a tie.) -/
def roundTo (x : ℚ) (n : ℕ) : ℚ :=
  ((round (x * 10 ^ n) : ℤ) : ℚ) / 10 ^ n

/-- Option type selector used by the shared kernel (`option_type == "call"`). -/
def isCall (option_type : String) : Prop := option_type = "call"

instance (s : String) : Decidable (isCall s) := by
  unfold isCall; infer_instance

/-- `bs_price` from shared_tools/pricing.py. -/
def bs_priceShared (ff : FloatFuns) (spot strike dte_days vol risk_free : ℚ)
    (option_type : String) : ℚ :=
  if dte_days ≤ 0 ∨ vol ≤ 0 ∨ spot ≤ 0 then
    if isCall option_type then max (spot - strike) 0 else max (strike - spot) 0
  else
    let T := dte_days / 365
    let sqrt_T := ff.sqrt T
    let d1 := (ff.log (spot / strike) + (risk_free + (1 / 2) * vol ^ 2) * T) /
      (vol * sqrt_T)
    let d2 := d1 - vol * sqrt_T
    if isCall option_type then
      spot * normCdf ff d1 - strike * ff.exp (-risk_free * T) * normCdf ff d2
    else
      strike * ff.exp (-risk_free * T) * normCdf ff (-d2) - spot * normCdf ff (-d1)

/-- `bs_greeks` from shared_tools/pricing.py: the shared pricing kernel. -/
def bs_greeksShared (ff : FloatFuns) (spot strike dte_days vol risk_free : ℚ)
    (option_type : String) : GreeksDict :=
  if dte_days ≤ 0 ∨ vol ≤ 0 ∨ spot ≤ 0 then
    ⟨0, 0, 0, 0⟩
  else
    let T := dte_days / 365
    let sqrt_T := ff.sqrt T
    let d1 := (ff.log (spot / strike) + (risk_free + (1 / 2) * vol ^ 2) * T) /
      (vol * sqrt_T)
    let d2 := d1 - vol * sqrt_T
    let pdf_d1 := normPdf ff d1
    let delta := if isCall option_type then normCdf ff d1 else normCdf ff d1 - 1
    let theta_annual :=
      if isCall option_type then
        -(spot * pdf_d1 * vol) / (2 * sqrt_T) -
          risk_free * strike * ff.exp (-risk_free * T) * normCdf ff d2
      else
        -(spot * pdf_d1 * vol) / (2 * sqrt_T) +
          risk_free * strike * ff.exp (-risk_free * T) * normCdf ff (-d2)
    let gamma := if spot * vol * sqrt_T > 0 then pdf_d1 / (spot * vol * sqrt_T) else 0
    let vega := spot * pdf_d1 * sqrt_T / 100
    let theta := theta_annual / 365
    ⟨roundTo delta 4, roundTo gamma 6, roundTo theta 2, roundTo vega 2⟩

end Pricing

namespace Deribit

/-- The Deribit adapter's copy of `bs_greeks` (platforms/deribit/adapter.py).
Unlike the shared kernel, the at-expiry / nonpositive-vol branch reports a
delta of `±1` for in-the-money contracts. -/
def adapterBsGreeks (ff : Pricing.FloatFuns) (S K T r sigma : ℚ)
    (option_type : OptionType) : Greeks :=
  if T ≤ 0 ∨ sigma ≤ 0 then
    let intrinsic := if option_type = OptionType.call then max (S - K) 0
      else max (K - S) 0
    let delta : ℚ :=
      if intrinsic > 0 ∧ option_type = OptionType.call then 1
      else if intrinsic > 0 ∧ option_type = OptionType.put then -1
      else 0
    { delta := delta, gamma := 0, theta := 0, vega := 0, iv := sigma }
  else
    let sqrt_T := ff.sqrt T
    let d1 := (ff.log (S / K) + (r + (1 / 2) * sigma ^ 2) * T) / (sigma * sqrt_T)
    let d2 := d1 - sigma * sqrt_T
    let pdf_d1 := Pricing.normPdf ff d1
    let delta := if option_type = OptionType.call then Pricing.normCdf ff d1
      else Pricing.normCdf ff d1 - 1
    let gamma := pdf_d1 / (S * sigma * sqrt_T)
    let theta_term1 := -(S * pdf_d1 * sigma) / (2 * sqrt_T)
    let theta :=
      if option_type = OptionType.call then
        (theta_term1 - r * K * ff.exp (-r * T) * Pricing.normCdf ff d2) / 365
      else
        (theta_term1 + r * K * ff.exp (-r * T) * Pricing.normCdf ff (-d2)) / 365
    let vega := S * sqrt_T * pdf_d1 / 100
    { delta := delta, gamma := gamma, theta := theta, vega := vega, iv := sigma }

/-- A trivial instantiation of the float-routine model, used to state
closed facts about branches that never call the routines. -/
def idFloatFuns : Pricing.FloatFuns :=
  { sqrt := fun x => x, log := fun x => x, exp := fun x => x,
    erf := fun x => x, pi := 3 }

end Deribit

namespace CheckOptions

/-- Fields of an existing-position dict read by `score_new_trade`
(`option_type`, `strike`, `expiry`, top-level `delta`, `action`,
`entry_premium_usd`; the `.get` defaults are materialised). -/
structure PosEntry where
  option_type : String := ""
  strike : ℚ := 0
  expiry : String := ""
  delta : ℚ := 0
  action : String := ""
  entry_premium_usd : ℚ := 0
deriving DecidableEq, Repr

/-- Fields of a proposed-action dict read by `score_new_trade`
(`delta` is `greeks.delta`). -/
structure ProposedAction where
  action : String := ""
  option_type : String := ""
  strike : ℚ := 0
  expiry : String := ""
  delta : ℚ := 0
  premium_usd : ℚ := 0
deriving DecidableEq, Repr

/-- Python `min` over a list of rationals (callers guard non-emptiness). -/
def pyMin : List ℚ → ℚ
  | [] => 0
  | x :: xs => xs.foldl min x

/-- `MIN_SCORE_THRESHOLD = 0.3`. -/
def minScoreThreshold : ℚ := 3 / 10

/-- Strike-distance block of `score_new_trade`: mutate `score` by the
distance to the nearest same-type strike. -/
def strikeScore (a : ProposedAction) (existing : List PosEntry) (spot_price : ℚ)
    (score : ℚ) : ℚ :=
  let same_type := existing.filter (fun p => p.option_type = a.option_type)
  if same_type ≠ [] ∧ spot_price > 0 then
    let min_dist := pyMin (same_type.map (fun p => |a.strike - p.strike| / spot_price))
    if min_dist > 1 / 10 then score + 4 / 10
    else if min_dist > 1 / 20 then score + 2 / 10
    else score - 3 / 10
  else score

/-- Expiry block of `score_new_trade`: −0.1 on an overlapping expiry, +0.3
on a new one. -/
def expiryScore (a : ProposedAction) (existing : List PosEntry) (score : ℚ) : ℚ :=
  if existing.any (fun p => p.expiry = a.expiry) then score - 1 / 10
  else score + 3 / 10

/-- Delta-impact block of `score_new_trade`. -/
def deltaScore (a : ProposedAction) (existing : List PosEntry) (score : ℚ) : ℚ :=
  let net_delta := (existing.map (fun p => p.delta)).sum
  let new_net := net_delta + a.delta
  if |new_net| > |net_delta| ∧ |new_net| > 1 / 2 then score - 3 / 10
  else if |new_net| < |net_delta| then score + 2 / 10
  else score

/-- Premium-efficiency block of `score_new_trade` (sell actions only). -/
def premiumScore (a : ProposedAction) (existing : List PosEntry) (score : ℚ) : ℚ :=
  if a.action = "sell" then
    let sells := existing.filter (fun p => p.action = "sell")
    if sells ≠ [] ∧
        a.premium_usd >
          ((sells.map (fun p => p.entry_premium_usd)).sum / sells.length) * (11 / 10) then
      score + 1 / 10
    else score
  else score

/-- The running `score` of `score_new_trade` before the final `round(score, 2)`:
the four sequential adjustments of the source applied to the 0.5 base. -/
def scoreRaw (a : ProposedAction) (existing : List PosEntry) (spot_price : ℚ) : ℚ :=
  premiumScore a existing
    (deltaScore a existing
      (expiryScore a existing
        (strikeScore a existing spot_price (1 / 2))))

/-- `score_new_trade` (the returned score; the diagnostic reason string is
not modelled). -/
def scoreNewTrade (a : ProposedAction) (existing : List PosEntry)
    (spot_price : ℚ) : ℚ :=
  if existing = [] then 1
  else Pricing.roundTo (scoreRaw a existing spot_price) 2

/-- The action filter of `main`: keep a proposed action only when its score
reaches `MIN_SCORE_THRESHOLD`. -/
def scoredActions (actions : List ProposedAction) (existing : List PosEntry)
    (spot_price : ℚ) : List ProposedAction :=
  actions.filter (fun a => minScoreThreshold ≤ scoreNewTrade a existing spot_price)

/-- Strike-distance adjustment in the claim's words: relative to the nearest
same-type position (when one exists and spot is positive), `>10%` ⇒ +0.4,
`5–10%` ⇒ +0.2, otherwise −0.3. -/
def strikeAdjSpec (a : ProposedAction) (existing : List PosEntry)
    (spot_price : ℚ) : ℚ :=
  let same_type := existing.filter (fun p => p.option_type = a.option_type)
  if same_type ≠ [] ∧ spot_price > 0 then
    let d := pyMin (same_type.map (fun p => |a.strike - p.strike| / spot_price))
    if d > 1 / 10 then 4 / 10 else if d > 1 / 20 then 2 / 10
    else -(3 / 10)
  else 0

/-- Expiry adjustment in the claim's words: +0.3 for a new expiry, −0.1 for
an overlapping one. -/
def expiryAdjSpec (a : ProposedAction) (existing : List PosEntry) : ℚ :=
  if existing.any (fun p => p.expiry = a.expiry) then -(1 / 10) else 3 / 10

/-- Delta-impact adjustment in the claim's words: −0.3 when the net delta
grows in magnitude past 0.5; +0.2 when it shrinks. -/
def deltaAdjSpec (a : ProposedAction) (existing : List PosEntry) : ℚ :=
  let before := (existing.map (fun p => p.delta)).sum
  let after := before + a.delta
  if |after| > |before| ∧ |after| > 1 / 2 then -(3 / 10)
  else if |after| < |before| then 2 / 10
  else 0

/-- Premium-efficiency adjustment in the claim's words: +0.1 for a sell whose
premium exceeds 110% of the prior short legs' average entry premium. -/
def premiumAdjSpec (a : ProposedAction) (existing : List PosEntry) : ℚ :=
  let sells := existing.filter (fun p => p.action = "sell")
  if a.action = "sell" ∧ sells ≠ [] ∧
      a.premium_usd >
        ((sells.map (fun p => p.entry_premium_usd)).sum / sells.length) * (11 / 10) then
    1 / 10
  else 0

/-- Trade score in the claim's words: exactly 1.0 with no existing positions,
otherwise 0.5 plus the four adjustments. -/
def scoreSpec (a : ProposedAction) (existing : List PosEntry)
    (spot_price : ℚ) : ℚ :=
  if existing = [] then 1
  else 1 / 2 + strikeAdjSpec a existing spot_price + expiryAdjSpec a existing +
    deltaAdjSpec a existing + premiumAdjSpec a existing

end CheckOptions

namespace Strategies

/-- A pandas Series over the integer bar index: a value or NaN per bar. -/
abbrev Col := ℕ → Option ℚ

/-- Series comparison `a > b` with pandas NaN semantics (NaN makes it False). -/
def oGT : Option ℚ → Option ℚ → Bool
  | some x, some y => x > y
  | _, _ => false

/-- Series comparison `a ≥ b` with pandas NaN semantics. -/
def oGE : Option ℚ → Option ℚ → Bool
  | some x, some y => x ≥ y
  | _, _ => false

/-- Series comparison `a < b` with pandas NaN semantics. -/
def oLT : Option ℚ → Option ℚ → Bool
  | some x, some y => x < y
  | _, _ => false

/-- Series comparison `a ≤ b` with pandas NaN semantics. -/
def oLE : Option ℚ → Option ℚ → Bool
  | some x, some y => x ≤ y
  | _, _ => false

/-- `series.shift(1)`: NaN at bar 0, previous value afterwards. -/
def shift1 (c : Col) : Col
  | 0 => none
  | n + 1 => c n

/-- A NaN-free series (e.g. the raw `close`/`volume` inputs) as a `Col`. -/
def tcol (f : ℕ → ℚ) : Col := fun i => some (f i)

/-- `series.rolling(window=n).mean()`: mean of the trailing `n` bars, NaN
until `n` observations exist. -/
def smaQ (x : ℕ → ℚ) (n : ℕ) : Col := fun i =>
  if 0 < n ∧ n ≤ i + 1 then some ((∑ j ∈ Finset.range n, x (i - j)) / n) else none

/-- `series.ewm(span=n, adjust=False).mean()` on a NaN-free series:
`y₀ = x₀`, `yᵢ₊₁ = (1−α)·yᵢ + α·xᵢ₊₁` with `α = 2/(n+1)`. -/
def emaQ (x : ℕ → ℚ) (span : ℕ) : ℕ → ℚ
  | 0 => x 0
  | i + 1 =>
      (1 - 2 / ((span : ℚ) + 1)) * emaQ x span i + (2 / ((span : ℚ) + 1)) * x (i + 1)

/-- Rate of change `((close − close.shift(n)) / close.shift(n)) · 100`.
(Python float division by a zero close is not modelled; the verified
property does not depend on the value.) -/
def rocQ (x : ℕ → ℚ) (n : ℕ) : Col := fun i =>
  if n ≤ i then some ((x i - x (i - n)) / x (i - n) * 100) else none

/-- `series.rolling(window=n).std()` (sample std, `ddof=1`), with the float
square root passed in as `sqrtF`. -/
def rstdQ (sqrtF : ℚ → ℚ) (x : ℕ → ℚ) (n : ℕ) : Col := fun i =>
  if 2 ≤ n ∧ n ≤ i + 1 then
    let m := (∑ j ∈ Finset.range n, x (i - j)) / n
    some (sqrtF ((∑ j ∈ Finset.range n, (x (i - j) - m) ^ 2) / (n - 1 : ℚ)))
  else none

/-- Wilder average value at bar `k+1`: seeded at the first valid gain/loss
(bar 1) and recursed with `α`. -/
def wilderAvg (g : ℕ → ℚ) (alpha : ℚ) : ℕ → ℚ
  | 0 => g 1
  | k + 1 => (1 - alpha) * wilderAvg g alpha k + alpha * g (k + 2)

/-- `series.ewm(alpha=1/period, min_periods=period, adjust=False).mean()`
applied to the gain/loss series (whose only NaN is bar 0): NaN until
`period` valid observations, Wilder recursion afterwards. -/
def ewmWilder (g : ℕ → ℚ) (period : ℕ) : Col := fun i =>
  if 1 ≤ period ∧ period ≤ i then some (wilderAvg g (1 / (period : ℚ)) (i - 1))
  else none

/-- Per-bar gain `delta.clip(lower=0)` of the close diffs (bar 0 unused). -/
def gainCol (close : ℕ → ℚ) : ℕ → ℚ := fun i => max (close i - close (i - 1)) 0

/-- Per-bar loss `(−delta).clip(lower=0)` of the close diffs (bar 0 unused). -/
def lossCol (close : ℕ → ℚ) : ℕ → ℚ := fun i => max (close (i - 1) - close i) 0

/-- Wilder RSI column `100 − 100/(1 + avg_gain/avg_loss)`.  A zero average
loss gives `rs = inf` hence RSI 100 in floats; `0/0` gives NaN. -/
def rsiQ (close : ℕ → ℚ) (period : ℕ) : Col := fun i =>
  match ewmWilder (gainCol close) period i, ewmWilder (lossCol close) period i with
  | some ag, some al =>
      if al = 0 then (if ag = 0 then none else some 100)
      else some (100 - 100 / (1 + ag / al))
  | _, _ => none

/-- Rolling z-score `(x − rolling_mean)/rolling_std`.  (A zero std produces
float ±inf/NaN; the verified property does not depend on the value.) -/
def zScoreQ (sqrtF : ℚ → ℚ) (x : ℕ → ℚ) (lookback : ℕ) : Col := fun i =>
  match smaQ x lookback i, rstdQ sqrtF x lookback i with
  | some m, some s => some ((x i - m) / s)
  | _, _ => none

/-- `np.where(cond, 1, 0)` over a boolean series. -/
def posOfBool (b : ℕ → Bool) : ℕ → ℤ := fun i => if b i then 1 else 0

/-- `np.where(a > b, 1, 0)` for two series. -/
def positionCol (a b : Col) : ℕ → ℤ :=
  posOfBool (fun i => oGT (a i) (b i))

/-- `position.diff()`: NaN at bar 0, successive difference afterwards. -/
def diffSig (p : ℕ → ℤ) : ℕ → Option ℤ
  | 0 => none
  | i + 1 => some (p (i + 1) - p i)

/-- Series cross-up event `(a > th) & (a.shift(1) <= th.shift(1))`. -/
def crossUp (a th : Col) (i : ℕ) : Bool :=
  oGT (a i) (th i) && oLE (shift1 a i) (shift1 th i)

/-- Series cross-down event `(a < th) & (a.shift(1) >= th.shift(1))`. -/
def crossDown (a th : Col) (i : ℕ) : Bool :=
  oLT (a i) (th i) && oGE (shift1 a i) (shift1 th i)

/-- Scalar-threshold cross-up `(a > c) & (a.shift(1) <= c)`. -/
def crossUpC (a : Col) (c : ℚ) (i : ℕ) : Bool :=
  oGT (a i) (some c) && oLE (shift1 a i) (some c)

/-- Scalar-threshold cross-down `(a < c) & (a.shift(1) >= c)`. -/
def crossDownC (a : Col) (c : ℚ) (i : ℕ) : Bool :=
  oLT (a i) (some c) && oGE (shift1 a i) (some c)

/-- `signal = 0`, then `signal[buy] = 1`, then `signal[sell] = −1` (the
second `.loc` assignment wins on overlap). -/
def setSig (buy sell : ℕ → Bool) : ℕ → Option ℤ := fun i =>
  if sell i then some (-1) else if buy i then some 1 else some 0

/-- `sma_crossover` signal: diff of `np.where(sma_fast > sma_slow, 1, 0)`. -/
def smaCrossoverSignal (close : ℕ → ℚ) (fast_period slow_period : ℕ) :
    ℕ → Option ℤ :=
  diffSig (positionCol (smaQ close fast_period) (smaQ close slow_period))

/-- `ema_crossover` signal. -/
def emaCrossoverSignal (close : ℕ → ℚ) (fast_period slow_period : ℕ) :
    ℕ → Option ℤ :=
  diffSig (positionCol (tcol (emaQ close fast_period)) (tcol (emaQ close slow_period)))

/-- `rsi` strategy signal: buy on a cross up through `oversold`, sell on a
cross down through `overbought`. -/
def rsiSignal (close : ℕ → ℚ) (period : ℕ) (overbought oversold : ℚ) :
    ℕ → Option ℤ :=
  setSig (crossUpC (rsiQ close period) oversold)
    (crossDownC (rsiQ close period) overbought)

/-- `bollinger_bands` strategy signal. -/
def bollingerSignal (sqrtF : ℚ → ℚ) (close : ℕ → ℚ) (period : ℕ)
    (num_std : ℚ) : ℕ → Option ℤ :=
  let mid := smaQ close period
  let std := rstdQ sqrtF close period
  let upper : Col := fun i =>
    match mid i, std i with
    | some m, some s => some (m + s * num_std)
    | _, _ => none
  let lower : Col := fun i =>
    match mid i, std i with
    | some m, some s => some (m - s * num_std)
    | _, _ => none
  setSig (crossUp (tcol close) lower) (crossDown (tcol close) upper)

/-- `macd` strategy signal: diff of `np.where(macd_line > macd_signal, 1, 0)`. -/
def macdSignal (close : ℕ → ℚ) (fast_period slow_period signal_period : ℕ) :
    ℕ → Option ℤ :=
  let macd_line : ℕ → ℚ := fun i => emaQ close fast_period i - emaQ close slow_period i
  let macd_sig := emaQ macd_line signal_period
  diffSig (positionCol (tcol macd_line) (tcol macd_sig))

/-- `mean_reversion` strategy signal: z-score crossing `−entry_std` up /
`exit_std` down. -/
def meanReversionSignal (sqrtF : ℚ → ℚ) (close : ℕ → ℚ) (lookback : ℕ)
    (entry_std exit_std : ℚ) : ℕ → Option ℤ :=
  setSig (crossUpC (zScoreQ sqrtF close lookback) (-entry_std))
    (crossDownC (zScoreQ sqrtF close lookback) exit_std)

/-- `momentum` strategy signal: ROC crossing `threshold` up / `−threshold`
down. -/
def momentumSignal (close : ℕ → ℚ) (roc_period : ℕ) (threshold : ℚ) :
    ℕ → Option ℤ :=
  setSig (crossUpC (rocQ close roc_period) threshold)
    (crossDownC (rocQ close roc_period) (-threshold))

/-- `volume_weighted` strategy signal: price/SMA crossover confirmed by
`volume > vol_sma · vol_multiplier`. -/
def volumeWeightedSignal (close volume : ℕ → ℚ) (sma_period : ℕ)
    (vol_multiplier : ℚ) : ℕ → Option ℤ :=
  let psma := smaQ close sma_period
  let vsma := smaQ volume sma_period
  let highVol : ℕ → Bool := fun i =>
    oGT (some (volume i)) ((vsma i).map (fun v => v * vol_multiplier))
  setSig (fun i => crossUp (tcol close) psma i && highVol i)
    (fun i => crossDown (tcol close) psma i && highVol i)

/-- `triple_ema` strategy signal: diff of the bullish-alignment indicator. -/
def tripleEmaSignal (close : ℕ → ℚ) (short_period mid_period long_period : ℕ) :
    ℕ → Option ℤ :=
  let bullish : ℕ → Bool := fun i =>
    decide (emaQ close short_period i > emaQ close mid_period i) &&
      decide (emaQ close mid_period i > emaQ close long_period i)
  diffSig (posOfBool bullish)

/-- `rsi_macd_combo` strategy signal: MACD bullish cross while RSI < 50,
MACD bearish cross while RSI > 50.  (The `rsi_oversold`/`rsi_overbought`
parameters exist in the source but are unused by the conditions.) -/
def rsiMacdComboSignal (close : ℕ → ℚ)
    (rsi_period macd_fast macd_slow macd_signal : ℕ) : ℕ → Option ℤ :=
  let rsiC := rsiQ close rsi_period
  let macd_line : ℕ → ℚ := fun i => emaQ close macd_fast i - emaQ close macd_slow i
  let macd_sig := emaQ macd_line macd_signal
  setSig
    (fun i => crossUp (tcol macd_line) (tcol macd_sig) i && oLT (rsiC i) (some 50))
    (fun i => crossDown (tcol macd_line) (tcol macd_sig) i && oGT (rsiC i) (some 50))

/-- `pairs_spread` strategy signal: z-score of the price ratio (or of the
close itself when no second series is present). -/
def pairsSpreadSignal (sqrtF : ℚ → ℚ) (close : ℕ → ℚ)
    (closeB : Option (ℕ → ℚ)) (lookback : ℕ) (entry_z exit_z : ℚ) :
    ℕ → Option ℤ :=
  let spread : ℕ → ℚ :=
    match closeB with
    | some cb => fun i => close i / cb i
    | none => close
  setSig (crossUpC (zScoreQ sqrtF spread lookback) (-entry_z))
    (crossDownC (zScoreQ sqrtF spread lookback) exit_z)

/-- Edge-triggered property of a signal column: no two consecutive bars both
carry `+1`, and none both carry `−1`. -/
def edgeOK (sig : ℕ → Option ℤ) : Prop :=
  ∀ i : ℕ, ¬(sig i = some 1 ∧ sig (i + 1) = some 1) ∧
    ¬(sig i = some (-1) ∧ sig (i + 1) = some (-1))

end Strategies

/-! ### Helper lemmas -/

theorem resetDaily_active (s : SpotRisk.RMState) (clock : SpotRisk.Clock) (pv : ℚ) :
    (SpotRisk.resetDaily s clock pv).circuit_break_active = s.circuit_break_active := by
  unfold SpotRisk.resetDaily; split <;> rfl

theorem resetDaily_until (s : SpotRisk.RMState) (clock : SpotRisk.Clock) (pv : ℚ) :
    (SpotRisk.resetDaily s clock pv).circuit_break_until = s.circuit_break_until := by
  unfold SpotRisk.resetDaily; split <;> rfl

theorem resetDaily_losses (s : SpotRisk.RMState) (clock : SpotRisk.Clock) (pv : ℚ) :
    (SpotRisk.resetDaily s clock pv).consecutive_losses = s.consecutive_losses := by
  unfold SpotRisk.resetDaily; split <;> rfl

/-! ### C1 — circuit-breaker lifecycle of the spot RiskManager -/

/-- C1: once `_trigger_circuit_break` fires (setting the flag and
`until = now + cooldown`), every `check_can_trade` strictly before `until`
is denied by the breaker rule and leaves the breaker armed; the first check
at or after `until` is not denied by the breaker rule, resets
`consecutive_losses` to 0, and leaves the flag cleared unless the daily-loss
or drawdown rule freshly re-triggers in that same call. -/
theorem C1_circuit_breaker_lifecycle
    (cfg : SpotRisk.RiskConfig) (s : SpotRisk.RMState) (u : ℚ)
    (clock : SpotRisk.Clock) (pv proposed : ℚ) (symbol : String)
    (positions : List (String × ℚ))
    (hact : s.circuit_break_active = true)
    (huntil : s.circuit_break_until = some u)
    (hmax : 0 < cfg.max_consecutive_losses) :
    (∀ (s2 : SpotRisk.RMState) (t0 : ℚ),
      (SpotRisk.triggerCircuitBreak cfg s2 t0).circuit_break_active = true ∧
      (SpotRisk.triggerCircuitBreak cfg s2 t0).circuit_break_until
        = some (t0 + cfg.cooldown_after_circuit_break_min)) ∧
    (clock.t < u →
      (SpotRisk.checkCanTrade cfg s clock pv proposed symbol positions).1
          = ⟨false, .circuitBreaker⟩ ∧
      (SpotRisk.checkCanTrade cfg s clock pv proposed symbol positions).2.circuit_break_active
          = true ∧
      (SpotRisk.checkCanTrade cfg s clock pv proposed symbol positions).2.circuit_break_until
          = some u) ∧
    (u ≤ clock.t →
      (SpotRisk.checkCanTrade cfg s clock pv proposed symbol positions).1.reason
          ≠ .circuitBreaker ∧
      (SpotRisk.checkCanTrade cfg s clock pv proposed symbol positions).2.consecutive_losses
          = 0 ∧
      ((SpotRisk.checkCanTrade cfg s clock pv proposed symbol positions).1.reason
          ≠ .dailyLoss →
       (SpotRisk.checkCanTrade cfg s clock pv proposed symbol positions).1.reason
          ≠ .drawdown →
       (SpotRisk.checkCanTrade cfg s clock pv proposed symbol positions).2.circuit_break_active
          = false)) := by
  refine ⟨fun s2 t0 => ⟨rfl, rfl⟩, ?_, ?_⟩
  · intro hlt
    have hcool : SpotRisk.stillCooling (some u) clock.t = true := by
      simp [SpotRisk.stillCooling, hlt]
    unfold SpotRisk.checkCanTrade
    simp [resetDaily_active, resetDaily_until, hact, huntil, hcool]
  · intro hge
    have hcool : SpotRisk.stillCooling (some u) clock.t = false := by
      simp [SpotRisk.stillCooling, not_lt.mpr hge]
    have hmax' : cfg.max_consecutive_losses ≠ 0 := Nat.pos_iff_ne_zero.mp hmax
    unfold SpotRisk.checkCanTrade
    simp only [resetDaily_active, resetDaily_until, resetDaily_losses, hact,
      huntil, hcool, Bool.false_eq_true, and_false, if_false, if_true,
      eq_self_iff_true, true_and, Nat.le_zero, hmax', ite_false, ite_true]
    split_ifs <;> simp [SpotRisk.triggerCircuitBreak]

theorem C1_circuit_breaker_lifecycle_witness :
    (SpotRisk.checkCanTrade {}
        { circuit_break_active := true, circuit_break_until := some 100 }
        ⟨0, 50⟩ 1000 0 "" []).1 = ⟨false, SpotRisk.Reason.circuitBreaker⟩ := by
  have h := C1_circuit_breaker_lifecycle {}
    { circuit_break_active := true, circuit_break_until := some 100 }
    100 ⟨0, 50⟩ 1000 0 "" [] rfl rfl (by norm_num)
  exact (h.2.1 (by norm_num)).1

/-! ### C2 — breaker triggering on daily-loss and drawdown breaches -/

theorem resetDaily_sameDay (s : SpotRisk.RMState) (clock : SpotRisk.Clock)
    (pv : ℚ) (h : clock.day = s.day) : SpotRisk.resetDaily s clock pv = s := by
  unfold SpotRisk.resetDaily
  simp [h]

theorem oResetDaily_sameDay (s : OptRisk.ORMState) (clock : SpotRisk.Clock)
    (pv : ℚ) (h : clock.day = s.day) : OptRisk.oResetDaily s clock pv = s := by
  unfold OptRisk.oResetDaily
  simp [h]

/-- C2 counterexample: an `OptionsRiskManager` observing a −10% day (limit
−5%) denies the trade but leaves `circuit_break_active = false` and
`circuit_break_until = none`, contradicting the claim that both variants
trigger the circuit breaker on a daily-loss breach. -/
theorem C2_counterexample :
    (OptRisk.oCheckCanTrade {} { daily_start_value := 100, daily_pnl := -10, day := 0 }
        {} ⟨0, 0⟩ 0 .buy "").1 = ⟨false, OptRisk.OReason.dailyLoss⟩ ∧
    (OptRisk.oCheckCanTrade {} { daily_start_value := 100, daily_pnl := -10, day := 0 }
        {} ⟨0, 0⟩ 0 .buy "").2.circuit_break_active = false ∧
    (OptRisk.oCheckCanTrade {} { daily_start_value := 100, daily_pnl := -10, day := 0 }
        {} ⟨0, 0⟩ 0 .buy "").2.circuit_break_until = none := by
  refine ⟨?_, ?_, ?_⟩ <;>
    norm_num [OptRisk.oCheckCanTrade, OptRisk.oResetDaily, SpotRisk.stillCooling,
      Deribit.getPortfolioValue, Deribit.getPositions, Deribit.getPremiumAtRisk,
      OptRisk.oTriggerCircuitBreak]

/-- C2 (amended): in the spot `RiskManager` a daily-loss or drawdown breach
reached by `check_can_trade` denies the trade and triggers the circuit
breaker (`active = true`, `until = now + cooldown`); in `OptionsRiskManager`
the same breaches deny the trade but leave the breaker state untouched. -/
theorem C2_breach_triggering
    (cfg : SpotRisk.RiskConfig) (s : SpotRisk.RMState) (clock : SpotRisk.Clock)
    (pv proposed : ℚ) (symbol : String) (positions : List (String × ℚ))
    (ocfg : OptRisk.OptionsRiskConfig) (os : OptRisk.ORMState)
    (adapter : Deribit.AdapterState) (oclock : SpotRisk.Clock)
    (oprem : ℚ) (oside : Deribit.OptionSide) (ounder : String) :
    (s.circuit_break_active = false →
     s.consecutive_losses < cfg.max_consecutive_losses →
     clock.day = s.day →
     s.daily_start_value > 0 →
     (s.daily_pnl / s.daily_start_value) * 100 ≤ -cfg.daily_loss_limit_pct →
     (SpotRisk.checkCanTrade cfg s clock pv proposed symbol positions).1
         = ⟨false, .dailyLoss⟩ ∧
     (SpotRisk.checkCanTrade cfg s clock pv proposed symbol positions).2.circuit_break_active
         = true ∧
     (SpotRisk.checkCanTrade cfg s clock pv proposed symbol positions).2.circuit_break_until
         = some (clock.t + cfg.cooldown_after_circuit_break_min)) ∧
    (s.circuit_break_active = false →
     s.consecutive_losses < cfg.max_consecutive_losses →
     clock.day = s.day →
     ¬(s.daily_start_value > 0 ∧
        (s.daily_pnl / s.daily_start_value) * 100 ≤ -cfg.daily_loss_limit_pct) →
     s.peak_portfolio_value > 0 →
     ((pv - s.peak_portfolio_value) / s.peak_portfolio_value) * 100
         ≤ -cfg.max_drawdown_pct →
     (SpotRisk.checkCanTrade cfg s clock pv proposed symbol positions).1
         = ⟨false, .drawdown⟩ ∧
     (SpotRisk.checkCanTrade cfg s clock pv proposed symbol positions).2.circuit_break_active
         = true ∧
     (SpotRisk.checkCanTrade cfg s clock pv proposed symbol positions).2.circuit_break_until
         = some (clock.t + cfg.cooldown_after_circuit_break_min)) ∧
    (os.circuit_break_active = false →
     os.consecutive_losses < ocfg.max_consecutive_losses →
     oclock.day = os.day →
     os.daily_start_value > 0 →
     (os.daily_pnl / os.daily_start_value) * 100 ≤ -ocfg.daily_loss_limit_pct →
     (OptRisk.oCheckCanTrade ocfg os adapter oclock oprem oside ounder).1
         = ⟨false, .dailyLoss⟩ ∧
     (OptRisk.oCheckCanTrade ocfg os adapter oclock oprem oside ounder).2.circuit_break_active
         = os.circuit_break_active ∧
     (OptRisk.oCheckCanTrade ocfg os adapter oclock oprem oside ounder).2.circuit_break_until
         = os.circuit_break_until) ∧
    (os.circuit_break_active = false →
     os.consecutive_losses < ocfg.max_consecutive_losses →
     oclock.day = os.day →
     ¬(os.daily_start_value > 0 ∧
        (os.daily_pnl / os.daily_start_value) * 100 ≤ -ocfg.daily_loss_limit_pct) →
     os.peak_portfolio_value > 0 →
     ((Deribit.getPortfolioValue adapter - os.peak_portfolio_value) /
         os.peak_portfolio_value) * 100 ≤ -ocfg.max_drawdown_pct →
     (OptRisk.oCheckCanTrade ocfg os adapter oclock oprem oside ounder).1
         = ⟨false, .drawdown⟩ ∧
     (OptRisk.oCheckCanTrade ocfg os adapter oclock oprem oside ounder).2.circuit_break_active
         = os.circuit_break_active ∧
     (OptRisk.oCheckCanTrade ocfg os adapter oclock oprem oside ounder).2.circuit_break_until
         = os.circuit_break_until) := by
  refine ⟨?_, ?_, ?_, ?_⟩
  · intro hact hlt hday hds hbr
    unfold SpotRisk.checkCanTrade
    rw [resetDaily_sameDay s clock pv hday]
    simp only [hact, Bool.false_eq_true, false_and, if_false, ite_false]
    rw [if_neg (Nat.not_le.mpr hlt), if_pos ⟨hds, hbr⟩]
    exact ⟨rfl, rfl, rfl⟩
  · intro hact hlt hday hnd hpk hbr
    unfold SpotRisk.checkCanTrade
    rw [resetDaily_sameDay s clock pv hday]
    simp only [hact, Bool.false_eq_true, false_and, if_false, ite_false]
    rw [if_neg (Nat.not_le.mpr hlt), if_neg hnd, if_pos ⟨hpk, hbr⟩]
    exact ⟨rfl, rfl, rfl⟩
  · intro hact hlt hday hds hbr
    simp only [OptRisk.oCheckCanTrade]
    rw [oResetDaily_sameDay os oclock (Deribit.getPortfolioValue adapter) hday]
    simp only [hact, Bool.false_eq_true, false_and, if_false, ite_false]
    rw [if_neg (Nat.not_le.mpr hlt), if_pos ⟨hds, hbr⟩]
    exact ⟨rfl, hact, rfl⟩
  · intro hact hlt hday hnd hpk hbr
    simp only [OptRisk.oCheckCanTrade]
    rw [oResetDaily_sameDay os oclock (Deribit.getPortfolioValue adapter) hday]
    simp only [hact, Bool.false_eq_true, false_and, if_false, ite_false]
    rw [if_neg (Nat.not_le.mpr hlt), if_neg hnd, if_pos ⟨hpk, hbr⟩]
    exact ⟨rfl, hact, rfl⟩

theorem C2_breach_triggering_witness :
    ((SpotRisk.checkCanTrade {} { daily_start_value := 100, daily_pnl := -10, day := 0 }
        ⟨0, 7⟩ 1000 0 "" []).1 = ⟨false, SpotRisk.Reason.dailyLoss⟩ ∧
     (SpotRisk.checkCanTrade {} { daily_start_value := 100, daily_pnl := -10, day := 0 }
        ⟨0, 7⟩ 1000 0 "" []).2.circuit_break_until = some 67) ∧
    ((OptRisk.oCheckCanTrade {} { daily_start_value := 100, daily_pnl := -10, day := 0 }
        {} ⟨0, 0⟩ 0 .buy "").1 = ⟨false, OptRisk.OReason.dailyLoss⟩ ∧
     (OptRisk.oCheckCanTrade {} { daily_start_value := 100, daily_pnl := -10, day := 0 }
        {} ⟨0, 0⟩ 0 .buy "").2.circuit_break_until = none) := by
  have h := C2_breach_triggering {} { daily_start_value := 100, daily_pnl := -10, day := 0 }
    ⟨0, 7⟩ 1000 0 "" [] {} { daily_start_value := 100, daily_pnl := -10, day := 0 }
    {} ⟨0, 0⟩ 0 .buy ""
  have h1 := h.1 rfl (by norm_num) rfl (by norm_num) (by norm_num)
  have h3 := h.2.2.1 rfl (by norm_num) rfl (by norm_num) (by norm_num)
  exact ⟨⟨h1.1, by rw [h1.2.2]; norm_num⟩, ⟨h3.1, h3.2.2⟩⟩

/-! ### C8 — position-count rule -/

/-- C8 counterexample: with five active positions (the configured maximum)
and a proposed symbol whose base asset is already among them, the spot
`check_can_trade` allows the trade, contradicting the claim that reaching
`max_num_positions` always denies. -/
theorem C8_counterexample :
    (SpotRisk.checkCanTrade {} { day := 0 } ⟨0, 0⟩ 10000 0 "BTC/USDT"
        [("BTC", 1), ("ETH", 1), ("SOL", 1), ("ADA", 1), ("DOT", 1)]).1
      = ⟨true, SpotRisk.Reason.ok⟩ ∧
    ({} : SpotRisk.RiskConfig).max_num_positions ≤
      (([("BTC", (1 : ℚ)), ("ETH", 1), ("SOL", 1), ("ADA", 1), ("DOT", 1)]).filter
        (fun kv => kv.2 > 0)).length := by
  refine ⟨?_, by decide⟩
  norm_num [SpotRisk.checkCanTrade, SpotRisk.resetDaily, SpotRisk.stillCooling,
    List.filter, List.any, show SpotRisk.baseAsset "BTC/USDT" = "BTC" from by decide]

/-- C8 (amended): when the earlier rules pass and the active-position count
has reached the cap, `RiskManager.check_can_trade` denies only for a
nonempty symbol whose base asset is not already among the active positions;
`OptionsRiskManager.check_can_trade` denies unconditionally once the
position count reaches `max_positions`. -/
theorem C8_position_count_rule
    (cfg : SpotRisk.RiskConfig) (s : SpotRisk.RMState) (clock : SpotRisk.Clock)
    (pv proposed : ℚ) (symbol : String) (positions : List (String × ℚ))
    (ocfg : OptRisk.OptionsRiskConfig) (os : OptRisk.ORMState)
    (adapter : Deribit.AdapterState) (oclock : SpotRisk.Clock)
    (oprem : ℚ) (oside : Deribit.OptionSide) (ounder : String)
    (hact : s.circuit_break_active = false)
    (hlt : s.consecutive_losses < cfg.max_consecutive_losses)
    (hday : clock.day = s.day)
    (hnd : ¬(s.daily_start_value > 0 ∧
      (s.daily_pnl / s.daily_start_value) * 100 ≤ -cfg.daily_loss_limit_pct))
    (hnp : ¬(s.peak_portfolio_value > 0 ∧
      ((pv - s.peak_portfolio_value) / s.peak_portfolio_value) * 100
        ≤ -cfg.max_drawdown_pct))
    (hns : ¬(proposed > 0 ∧
      proposed > min (pv * (cfg.max_position_size_pct / 100)) cfg.max_position_size_usd))
    (hcount : cfg.max_num_positions ≤
      (positions.filter (fun kv => kv.2 > 0)).length)
    (hsym : symbol ≠ "")
    (hnew : (positions.filter (fun kv => kv.2 > 0)).any
      (fun kv => kv.1 = SpotRisk.baseAsset symbol) = false)
    (ohact : os.circuit_break_active = false)
    (ohlt : os.consecutive_losses < ocfg.max_consecutive_losses)
    (ohday : oclock.day = os.day)
    (ohnd : ¬(os.daily_start_value > 0 ∧
      (os.daily_pnl / os.daily_start_value) * 100 ≤ -ocfg.daily_loss_limit_pct))
    (ohnp : ¬(os.peak_portfolio_value > 0 ∧
      ((Deribit.getPortfolioValue adapter - os.peak_portfolio_value) /
        os.peak_portfolio_value) * 100 ≤ -ocfg.max_drawdown_pct))
    (ohcount : ocfg.max_positions ≤ (Deribit.getPositions adapter).length) :
    (SpotRisk.checkCanTrade cfg s clock pv proposed symbol positions).1
        = ⟨false, SpotRisk.Reason.maxPositions⟩ ∧
    (OptRisk.oCheckCanTrade ocfg os adapter oclock oprem oside ounder).1
        = ⟨false, OptRisk.OReason.maxPositions⟩ := by
  constructor
  · simp only [SpotRisk.checkCanTrade]
    rw [resetDaily_sameDay s clock pv hday]
    simp only [hact, Bool.false_eq_true, false_and, if_false, ite_false]
    rw [if_neg (Nat.not_le.mpr hlt), if_neg hnd, if_neg hnp, if_neg hns,
      if_pos ⟨hcount, hsym, by simp [hnew]⟩]
  · simp only [OptRisk.oCheckCanTrade]
    rw [oResetDaily_sameDay os oclock (Deribit.getPortfolioValue adapter) ohday]
    simp only [ohact, Bool.false_eq_true, false_and, if_false, ite_false]
    rw [if_neg (Nat.not_le.mpr ohlt), if_neg ohnd, if_neg ohnp, if_pos ohcount]

theorem C8_position_count_rule_witness :
    (SpotRisk.checkCanTrade {} { day := 0 } ⟨0, 0⟩ 10000 0 "BTC/USDT"
        [("ETH", 1), ("SOL", 1), ("ADA", 1), ("DOT", 1), ("XRP", 1)]).1
      = ⟨false, SpotRisk.Reason.maxPositions⟩ ∧
    (OptRisk.oCheckCanTrade {} { day := 0 }
        { positions := List.replicate 10
            ⟨1, "P", "BTC", 50, 100, .call, .buy, 1, 1, 1, 0, 100, 0, 0, {}, none⟩ }
        ⟨0, 0⟩ 0 .buy "").1 = ⟨false, OptRisk.OReason.maxPositions⟩ := by
  refine C8_position_count_rule {} { day := 0 } ⟨0, 0⟩ 10000 0 "BTC/USDT"
    [("ETH", 1), ("SOL", 1), ("ADA", 1), ("DOT", 1), ("XRP", 1)]
    {} { day := 0 }
    { positions := List.replicate 10
        ⟨1, "P", "BTC", 50, 100, .call, .buy, 1, 1, 1, 0, 100, 0, 0, {}, none⟩ }
    ⟨0, 0⟩ 0 .buy ""
    rfl (by norm_num) rfl (by norm_num) (by norm_num) (by norm_num)
    (by decide) (by decide) (by decide)
    rfl (by norm_num) rfl ?_ ?_ (by simp [Deribit.getPositions])
  · norm_num
  · norm_num [Deribit.getPortfolioValue]

/-! ### C10 — sell_option has no cash or margin check -/

/-- C10: `sell_option` succeeds for every positive quote regardless of the
adapter's cash — crediting premium minus commission and appending the short
position — and returns `none` exactly when the quote is non-positive, while
`buy_option` rejects when cash cannot cover cost plus commission. -/
theorem C10_sell_option_no_cash_check
    (st st2 : Deribit.AdapterState) (c c2 : Deribit.OptionContract)
    (qty qty2 : ℚ) (leg leg2 : Option String) (now now2 : ℚ) :
    (0 < Deribit.sellQuote c →
      (Deribit.sellOption st c qty leg now).1.isSome = true ∧
      (Deribit.sellOption st c qty leg now).2.cash
        = st.cash + (Deribit.sellQuote c * c.spot_price * qty
            - Deribit.sellQuote c * c.spot_price * qty * Deribit.takerFee) ∧
      (∀ pos, (Deribit.sellOption st c qty leg now).1 = some pos →
        pos.side = Deribit.OptionSide.sell ∧
        (Deribit.sellOption st c qty leg now).2.positions
          = st.positions ++ [pos])) ∧
    (Deribit.sellQuote c ≤ 0 →
      Deribit.sellOption st c qty leg now = (none, st)) ∧
    (0 < Deribit.buyQuote c2 →
      st2.cash < Deribit.buyQuote c2 * c2.spot_price * qty2
          + Deribit.buyQuote c2 * c2.spot_price * qty2 * Deribit.takerFee →
      Deribit.buyOption st2 c2 qty2 leg2 now2 = (none, st2)) := by
  refine ⟨?_, ?_, ?_⟩
  · intro hq
    simp only [Deribit.sellOption]
    rw [if_neg (not_le.mpr hq)]
    refine ⟨rfl, rfl, ?_⟩
    intro pos hpos
    obtain rfl := Option.some.inj hpos
    exact ⟨rfl, rfl⟩
  · intro hq
    simp only [Deribit.sellOption]
    rw [if_pos hq]
  · intro hq hcash
    simp only [Deribit.buyOption]
    rw [if_neg (not_le.mpr hq), if_pos hcash]

theorem C10_sell_option_no_cash_check_witness :
    (Deribit.sellOption { cash := -5 }
        { symbol := "S", underlying := "BTC", strike := 100, expiry := 30,
          option_type := .put, bid := 1 / 100, spot_price := 100 }
        1 none 0).1.isSome = true ∧
    (Deribit.sellOption { cash := -5 }
        { symbol := "S", underlying := "BTC", strike := 100, expiry := 30,
          option_type := .put, bid := 1 / 100, spot_price := 100 }
        1 none 0).2.cash = -40003 / 10000 ∧
    Deribit.sellOption {}
        { symbol := "Z", underlying := "BTC", strike := 100, expiry := 30,
          option_type := .put }
        1 none 0 = (none, {}) ∧
    Deribit.buyOption { cash := 0 }
        { symbol := "B", underlying := "BTC", strike := 100, expiry := 30,
          option_type := .call, ask := 1 / 100, spot_price := 100 }
        1 none 0 = (none, { cash := 0 }) := by
  have hq : Deribit.sellQuote
      { symbol := "S", underlying := "BTC", strike := 100, expiry := 30,
        option_type := .put, bid := 1 / 100, spot_price := 100 } = 1 / 100 := by
    norm_num [Deribit.sellQuote]
  have hz : Deribit.sellQuote
      { symbol := "Z", underlying := "BTC", strike := 100, expiry := 30,
        option_type := .put } = 0 := by
    norm_num [Deribit.sellQuote, Deribit.midPrice]
  have hb : Deribit.buyQuote
      { symbol := "B", underlying := "BTC", strike := 100, expiry := 30,
        option_type := .call, ask := 1 / 100, spot_price := 100 } = 1 / 100 := by
    norm_num [Deribit.buyQuote]
  have h1 := (C10_sell_option_no_cash_check { cash := -5 } { cash := 0 }
      { symbol := "S", underlying := "BTC", strike := 100, expiry := 30,
        option_type := .put, bid := 1 / 100, spot_price := 100 }
      { symbol := "B", underlying := "BTC", strike := 100, expiry := 30,
        option_type := .call, ask := 1 / 100, spot_price := 100 }
      1 1 none none 0 0).1 (by rw [hq]; norm_num)
  have h2 := (C10_sell_option_no_cash_check {} {}
      { symbol := "Z", underlying := "BTC", strike := 100, expiry := 30,
        option_type := .put }
      { symbol := "Z", underlying := "BTC", strike := 100, expiry := 30,
        option_type := .put }
      1 1 none none 0 0).2.1 (by rw [hz])
  have h3 := (C10_sell_option_no_cash_check { cash := 0 } { cash := 0 }
      { symbol := "B", underlying := "BTC", strike := 100, expiry := 30,
        option_type := .call, ask := 1 / 100, spot_price := 100 }
      { symbol := "B", underlying := "BTC", strike := 100, expiry := 30,
        option_type := .call, ask := 1 / 100, spot_price := 100 }
      1 1 none none 0 0).2.2 (by rw [hb]; norm_num)
      (by rw [hb]; norm_num [Deribit.takerFee])
  refine ⟨h1.1, ?_, h2, h3⟩
  rw [h1.2.1, hq]
  norm_num [Deribit.takerFee]

/-! ### C3 — multi-leg builders: leg tagging without rollback -/

theorem legFn_some_positions (side : Deribit.OptionSide) (st : Deribit.AdapterState)
    (c : Deribit.OptionContract) (qty : ℚ) (leg : Option String) (now : ℚ)
    (pos : Deribit.OptionPosition)
    (h : (Deribit.legFn side st c qty leg now).1 = some pos) :
    pos.leg_group = leg ∧
    (Deribit.legFn side st c qty leg now).2.positions = st.positions ++ [pos] := by
  cases side <;>
    simp only [Deribit.legFn, Deribit.buyOption, Deribit.sellOption] at h ⊢ <;>
    split_ifs at h ⊢ <;>
    simp only [Option.some.injEq] at h <;>
    first
      | exact absurd h (by simp)
      | (obtain rfl := h.symm; exact ⟨rfl, rfl⟩)

theorem legFn_none_state (side : Deribit.OptionSide) (st : Deribit.AdapterState)
    (c : Deribit.OptionContract) (qty : ℚ) (leg : Option String) (now : ℚ)
    (h : (Deribit.legFn side st c qty leg now).1 = none) :
    (Deribit.legFn side st c qty leg now).2 = st := by
  cases side <;>
    simp only [Deribit.legFn, Deribit.buyOption, Deribit.sellOption] at h ⊢ <;>
    split_ifs at h ⊢ <;> simp_all

/-- C3 counterexample: a buy straddle whose put leg has no tradable quote
returns `none` but leaves the filled call leg open and the cash spent on it
un-refunded — the structure neither stays whole nor rolls back. -/
theorem C3_counterexample :
    (Deribit.openStraddleLegs {}
        { symbol := "C", underlying := "BTC", strike := 100, expiry := 30,
          option_type := .call, ask := 1 / 100, spot_price := 100 }
        { symbol := "P", underlying := "BTC", strike := 100, expiry := 30,
          option_type := .put }
        .buy 1 0).1 = none ∧
    (Deribit.openStraddleLegs {}
        { symbol := "C", underlying := "BTC", strike := 100, expiry := 30,
          option_type := .call, ask := 1 / 100, spot_price := 100 }
        { symbol := "P", underlying := "BTC", strike := 100, expiry := 30,
          option_type := .put }
        .buy 1 0).2.positions.length = 1 ∧
    (Deribit.openStraddleLegs {}
        { symbol := "C", underlying := "BTC", strike := 100, expiry := 30,
          option_type := .call, ask := 1 / 100, spot_price := 100 }
        { symbol := "P", underlying := "BTC", strike := 100, expiry := 30,
          option_type := .put }
        .buy 1 0).2.cash = 99989997 / 10000 ∧
    ((99989997 : ℚ) / 10000 ≠ 10000) := by
  refine ⟨?_, ?_, ?_, by norm_num⟩ <;>
    norm_num [Deribit.openStraddleLegs, Deribit.legFn, Deribit.buyOption,
      Deribit.buyQuote, Deribit.midPrice, Deribit.takerFee]

/-- C3 (amended): when both legs of `open_straddle`/`open_strangle` fill, the
builder returns the group tag and both positions carry it; when the second
leg fails after the first has filled, the builder returns `none` but the
first leg's position remains open and cash stays at its post-first-leg
value — there is no rollback. -/
theorem C3_multi_leg_no_rollback
    (st : Deribit.AdapterState) (callC putC : Deribit.OptionContract)
    (calls puts : List Deribit.OptionContract) (spot otm : ℚ)
    (side : Deribit.OptionSide) (qty now : ℚ) :
    (∀ p1 st1 p2 st2,
      Deribit.legFn side st callC qty (some (Deribit.groupTag "straddle" st)) now
          = (some p1, st1) →
      Deribit.legFn side st1 putC qty (some (Deribit.groupTag "straddle" st)) now
          = (some p2, st2) →
      Deribit.openStraddleLegs st callC putC side qty now
          = (some (Deribit.groupTag "straddle" st), st2) ∧
      p1.leg_group = some (Deribit.groupTag "straddle" st) ∧
      p2.leg_group = some (Deribit.groupTag "straddle" st) ∧
      p1 ∈ st2.positions ∧ p2 ∈ st2.positions) ∧
    (∀ p1 st1,
      Deribit.legFn side st callC qty (some (Deribit.groupTag "straddle" st)) now
          = (some p1, st1) →
      (Deribit.legFn side st1 putC qty (some (Deribit.groupTag "straddle" st)) now).1
          = none →
      Deribit.openStraddleLegs st callC putC side qty now = (none, st1) ∧
      p1 ∈ st1.positions) ∧
    (∀ cc pc p1 st1 p2 st2,
      calls ≠ [] → puts ≠ [] →
      Deribit.pyMinBy (fun c => |c.strike - spot * (1 + otm)|) calls = some cc →
      Deribit.pyMinBy (fun c => |c.strike - spot * (1 - otm)|) puts = some pc →
      Deribit.legFn side st cc qty (some (Deribit.groupTag "strangle" st)) now
          = (some p1, st1) →
      Deribit.legFn side st1 pc qty (some (Deribit.groupTag "strangle" st)) now
          = (some p2, st2) →
      Deribit.openStrangleLegs st calls puts spot otm side qty now
          = (some (Deribit.groupTag "strangle" st), st2) ∧
      p1.leg_group = some (Deribit.groupTag "strangle" st) ∧
      p2.leg_group = some (Deribit.groupTag "strangle" st)) ∧
    (∀ cc pc p1 st1,
      calls ≠ [] → puts ≠ [] →
      Deribit.pyMinBy (fun c => |c.strike - spot * (1 + otm)|) calls = some cc →
      Deribit.pyMinBy (fun c => |c.strike - spot * (1 - otm)|) puts = some pc →
      Deribit.legFn side st cc qty (some (Deribit.groupTag "strangle" st)) now
          = (some p1, st1) →
      (Deribit.legFn side st1 pc qty (some (Deribit.groupTag "strangle" st)) now).1
          = none →
      Deribit.openStrangleLegs st calls puts spot otm side qty now = (none, st1) ∧
      p1 ∈ st1.positions) := by
  refine ⟨?_, ?_, ?_, ?_⟩
  · intro p1 st1 p2 st2 h1 h2
    have h1a : (Deribit.legFn side st callC qty
        (some (Deribit.groupTag "straddle" st)) now).1 = some p1 := by rw [h1]
    have h2a : (Deribit.legFn side st1 putC qty
        (some (Deribit.groupTag "straddle" st)) now).1 = some p2 := by rw [h2]
    have hp1 := legFn_some_positions side st callC qty _ now p1 h1a
    have hp2 := legFn_some_positions side st1 putC qty _ now p2 h2a
    have hst1 : st1.positions = st.positions ++ [p1] := by
      have := hp1.2; rw [h1] at this; exact this
    have hst2 : st2.positions = st1.positions ++ [p2] := by
      have := hp2.2; rw [h2] at this; exact this
    refine ⟨?_, hp1.1, hp2.1, ?_, ?_⟩
    · simp only [Deribit.openStraddleLegs]
      rw [h1]
      simp only []
      rw [h2]
      simp
    · rw [hst2, hst1]
      simp
    · rw [hst2]
      simp
  · intro p1 st1 h1 h2
    have h1a : (Deribit.legFn side st callC qty
        (some (Deribit.groupTag "straddle" st)) now).1 = some p1 := by rw [h1]
    have hp1 := legFn_some_positions side st callC qty _ now p1 h1a
    have hst1 : st1.positions = st.positions ++ [p1] := by
      have := hp1.2; rw [h1] at this; exact this
    have hs2 := legFn_none_state side st1 putC qty
      (some (Deribit.groupTag "straddle" st)) now h2
    refine ⟨?_, ?_⟩
    · simp only [Deribit.openStraddleLegs]
      rw [h1]
      simp only []
      rw [if_neg (by simp [h2])]
      rw [hs2]
    · rw [hst1]; simp
  · intro cc pc p1 st1 p2 st2 hcne hpne hmc hmp h1 h2
    have h2a : (Deribit.legFn side st1 pc qty
        (some (Deribit.groupTag "strangle" st)) now).1 = some p2 := by rw [h2]
    have hp1 := legFn_some_positions side st cc qty _ now p1 (by rw [h1])
    have hp2 := legFn_some_positions side st1 pc qty _ now p2 h2a
    refine ⟨?_, hp1.1, hp2.1⟩
    simp only [Deribit.openStrangleLegs]
    rw [if_neg (by simp [hcne, hpne]), hmc, hmp]
    simp only []
    rw [h1]
    simp only []
    rw [h2]
    simp
  · intro cc pc p1 st1 hcne hpne hmc hmp h1 h2
    have hp1 := legFn_some_positions side st cc qty _ now p1 (by rw [h1])
    have hst1 : st1.positions = st.positions ++ [p1] := by
      have := hp1.2; rw [h1] at this; exact this
    have hs2 := legFn_none_state side st1 pc qty
      (some (Deribit.groupTag "strangle" st)) now h2
    refine ⟨?_, by rw [hst1]; simp⟩
    simp only [Deribit.openStrangleLegs]
    rw [if_neg (by simp [hcne, hpne]), hmc, hmp]
    simp only []
    rw [h1]
    simp only []
    rw [if_neg (by simp [h2])]
    rw [hs2]

theorem C3_multi_leg_no_rollback_witness :
    Deribit.openStraddleLegs {}
        { symbol := "C", underlying := "BTC", strike := 100, expiry := 30,
          option_type := .call, ask := 1 / 100, spot_price := 100 }
        { symbol := "P", underlying := "BTC", strike := 100, expiry := 30,
          option_type := .put }
        .buy 1 0
      = (none, (Deribit.legFn .buy {}
          { symbol := "C", underlying := "BTC", strike := 100, expiry := 30,
            option_type := .call, ask := 1 / 100, spot_price := 100 }
          1 (some (Deribit.groupTag "straddle" ({} : Deribit.AdapterState))) 0).2) ∧
    (Deribit.openStraddleLegs {}
        { symbol := "C", underlying := "BTC", strike := 100, expiry := 30,
          option_type := .call, ask := 1 / 100, spot_price := 100 }
        { symbol := "P", underlying := "BTC", strike := 100, expiry := 30,
          option_type := .put, ask := 2 / 100, spot_price := 100 }
        .buy 1 0).1
      = some (Deribit.groupTag "straddle" ({} : Deribit.AdapterState)) := by
  have hsome1 : (Deribit.legFn .buy {}
      { symbol := "C", underlying := "BTC", strike := 100, expiry := 30,
        option_type := .call, ask := 1 / 100, spot_price := 100 }
      1 (some (Deribit.groupTag "straddle" ({} : Deribit.AdapterState))) 0).1.isSome
        = true := by
    norm_num [Deribit.legFn, Deribit.buyOption, Deribit.buyQuote,
      Deribit.midPrice, Deribit.takerFee]
  obtain ⟨p1, hp1⟩ := Option.isSome_iff_exists.mp hsome1
  have h1 : Deribit.legFn .buy {}
      { symbol := "C", underlying := "BTC", strike := 100, expiry := 30,
        option_type := .call, ask := 1 / 100, spot_price := 100 }
      1 (some (Deribit.groupTag "straddle" ({} : Deribit.AdapterState))) 0
      = (some p1, (Deribit.legFn .buy {}
          { symbol := "C", underlying := "BTC", strike := 100, expiry := 30,
            option_type := .call, ask := 1 / 100, spot_price := 100 }
          1 (some (Deribit.groupTag "straddle" ({} : Deribit.AdapterState))) 0).2) := by
    rw [← hp1]
  have h2 : (Deribit.legFn .buy
      (Deribit.legFn .buy {}
        { symbol := "C", underlying := "BTC", strike := 100, expiry := 30,
          option_type := .call, ask := 1 / 100, spot_price := 100 }
        1 (some (Deribit.groupTag "straddle" ({} : Deribit.AdapterState))) 0).2
      { symbol := "P", underlying := "BTC", strike := 100, expiry := 30,
        option_type := .put }
      1 (some (Deribit.groupTag "straddle" ({} : Deribit.AdapterState))) 0).1
        = none := by
    norm_num [Deribit.legFn, Deribit.buyOption, Deribit.buyQuote,
      Deribit.midPrice, Deribit.takerFee]
  have hfail := (C3_multi_leg_no_rollback {}
      { symbol := "C", underlying := "BTC", strike := 100, expiry := 30,
        option_type := .call, ask := 1 / 100, spot_price := 100 }
      { symbol := "P", underlying := "BTC", strike := 100, expiry := 30,
        option_type := .put }
      [] [] 0 0 .buy 1 0).2.1 p1 _ h1 h2
  have hsome2 : (Deribit.legFn .buy
      (Deribit.legFn .buy {}
        { symbol := "C", underlying := "BTC", strike := 100, expiry := 30,
          option_type := .call, ask := 1 / 100, spot_price := 100 }
        1 (some (Deribit.groupTag "straddle" ({} : Deribit.AdapterState))) 0).2
      { symbol := "P", underlying := "BTC", strike := 100, expiry := 30,
        option_type := .put, ask := 2 / 100, spot_price := 100 }
      1 (some (Deribit.groupTag "straddle" ({} : Deribit.AdapterState))) 0).1.isSome
        = true := by
    norm_num [Deribit.legFn, Deribit.buyOption, Deribit.buyQuote,
      Deribit.midPrice, Deribit.takerFee]
  obtain ⟨p2, hp2⟩ := Option.isSome_iff_exists.mp hsome2
  have h2g : Deribit.legFn .buy
      (Deribit.legFn .buy {}
        { symbol := "C", underlying := "BTC", strike := 100, expiry := 30,
          option_type := .call, ask := 1 / 100, spot_price := 100 }
        1 (some (Deribit.groupTag "straddle" ({} : Deribit.AdapterState))) 0).2
      { symbol := "P", underlying := "BTC", strike := 100, expiry := 30,
        option_type := .put, ask := 2 / 100, spot_price := 100 }
      1 (some (Deribit.groupTag "straddle" ({} : Deribit.AdapterState))) 0
      = (some p2, (Deribit.legFn .buy
          (Deribit.legFn .buy {}
            { symbol := "C", underlying := "BTC", strike := 100, expiry := 30,
              option_type := .call, ask := 1 / 100, spot_price := 100 }
            1 (some (Deribit.groupTag "straddle" ({} : Deribit.AdapterState))) 0).2
          { symbol := "P", underlying := "BTC", strike := 100, expiry := 30,
            option_type := .put, ask := 2 / 100, spot_price := 100 }
          1 (some (Deribit.groupTag "straddle" ({} : Deribit.AdapterState))) 0).2) := by
    rw [← hp2]
  have hgood := (C3_multi_leg_no_rollback {}
      { symbol := "C", underlying := "BTC", strike := 100, expiry := 30,
        option_type := .call, ask := 1 / 100, spot_price := 100 }
      { symbol := "P", underlying := "BTC", strike := 100, expiry := 30,
        option_type := .put, ask := 2 / 100, spot_price := 100 }
      [] [] 0 0 .buy 1 0).1 p1 _ p2 _ h1 h2g
  exact ⟨hfail.1, by rw [hgood.1]⟩

/-! ### C4 — expiry settlement -/

theorem settleExpired_cash (spotOf : String → ℚ) (st : Deribit.AdapterState)
    (p : Deribit.OptionPosition) :
    (Deribit.settleExpired spotOf st p).cash
      = st.cash + Deribit.settleCashOf spotOf p := by
  simp only [Deribit.settleExpired, Deribit.settleCashOf]
  split_ifs <;> simp [sub_eq_add_neg]

theorem settleExpired_trades (spotOf : String → ℚ) (st : Deribit.AdapterState)
    (p : Deribit.OptionPosition) :
    (Deribit.settleExpired spotOf st p).trades
      = st.trades ++ [Deribit.expiryRecordOf spotOf p] := by
  simp only [Deribit.settleExpired, Deribit.expiryRecordOf]
  split_ifs <;> simp

theorem settleExpired_positions (spotOf : String → ℚ) (st : Deribit.AdapterState)
    (p : Deribit.OptionPosition) :
    (Deribit.settleExpired spotOf st p).positions
      = st.positions.filter (fun q => q.id ≠ p.id) := by
  simp only [Deribit.settleExpired]
  split_ifs <;> simp

theorem foldSettle_cash (spotOf : String → ℚ) (l : List Deribit.OptionPosition)
    (st : Deribit.AdapterState) :
    (l.foldl (Deribit.settleExpired spotOf) st).cash
      = st.cash + (l.map (Deribit.settleCashOf spotOf)).sum := by
  induction l generalizing st with
  | nil => simp
  | cons p t ih => simp [List.foldl_cons, ih, settleExpired_cash, add_assoc]

theorem foldSettle_trades (spotOf : String → ℚ) (l : List Deribit.OptionPosition)
    (st : Deribit.AdapterState) :
    (l.foldl (Deribit.settleExpired spotOf) st).trades
      = st.trades ++ l.map (Deribit.expiryRecordOf spotOf) := by
  induction l generalizing st with
  | nil => simp
  | cons p t ih => simp [List.foldl_cons, ih, settleExpired_trades]

theorem foldSettle_positions (spotOf : String → ℚ)
    (l : List Deribit.OptionPosition) (st : Deribit.AdapterState) :
    (l.foldl (Deribit.settleExpired spotOf) st).positions
      = st.positions.filter (fun q => !(l.any (fun p => q.id = p.id))) := by
  induction l generalizing st with
  | nil => simp
  | cons p t ih =>
      rw [List.foldl_cons, ih, settleExpired_positions, List.filter_filter]
      congr 1
      funext q
      simp [Bool.and_comm]

/-- C4: `handle_expiries` removes exactly the positions whose expiry has been
reached; cash changes by the sum of the per-position settlements (`+I·q`
long / `−I·q` short when the intrinsic `I` is positive, nothing otherwise);
and one `EXERCISED` (intrinsic positive) or `EXPIRED` (intrinsic zero)
record is appended per expired position, in order.  The position ids are
pairwise distinct, as guaranteed by the order-counter construction. -/
theorem C4_expiry_settlement (spotOf : String → ℚ) (now : ℚ)
    (st : Deribit.AdapterState)
    (hids : st.positions.Pairwise (fun a b => a.id ≠ b.id)) :
    (Deribit.handleExpiries spotOf now st).positions
      = st.positions.filter (fun p => !(decide (Deribit.isExpired now p))) ∧
    (Deribit.handleExpiries spotOf now st).cash
      = st.cash + ((st.positions.filter (fun p => decide (Deribit.isExpired now p))).map
          (Deribit.settleCashOf spotOf)).sum ∧
    (Deribit.handleExpiries spotOf now st).trades
      = st.trades ++ (st.positions.filter (fun p => decide (Deribit.isExpired now p))).map
          (Deribit.expiryRecordOf spotOf) := by
  refine ⟨?_, foldSettle_cash spotOf _ st, foldSettle_trades spotOf _ st⟩
  rw [Deribit.handleExpiries, foldSettle_positions]
  apply List.filter_congr
  intro q hq
  by_cases hexp : Deribit.isExpired now q
  · have hmem : q ∈ st.positions.filter (fun p => decide (Deribit.isExpired now p)) :=
      List.mem_filter.mpr ⟨hq, by simp [hexp]⟩
    have hany : (st.positions.filter
        (fun p => decide (Deribit.isExpired now p))).any
          (fun p => q.id = p.id) = true :=
      List.any_eq_true.mpr ⟨q, hmem, by simp⟩
    simp [hany, hexp]
  · have hany : (st.positions.filter
        (fun p => decide (Deribit.isExpired now p))).any
          (fun p => q.id = p.id) = false := by
      rw [List.any_eq_false]
      intro p hp
      have hp' := List.mem_filter.mp hp
      have hpe : Deribit.isExpired now p := by simpa using hp'.2
      simp only [decide_eq_true_eq]
      intro hid
      by_cases hqp : q = p
      · exact hexp (hqp ▸ hpe)
      · exact List.Pairwise.forall (fun a b h => h.symm) hids hq hp'.1 hqp hid
    simp [hany, hexp]

theorem C4_expiry_settlement_witness :
    (Deribit.handleExpiries (fun _ => 120) 100
        { cash := 50, positions :=
            [⟨1, "E", "BTC", 100, 50, .call, .buy, 1, 1, 100, 0, 100, 0, 0, {}, none⟩,
             ⟨2, "L", "BTC", 100, 200, .call, .buy, 1, 1, 100, 0, 100, 0, 0, {}, none⟩] }).positions
      = ([⟨1, "E", "BTC", 100, 50, .call, .buy, 1, 1, 100, 0, 100, 0, 0, {}, none⟩,
          ⟨2, "L", "BTC", 100, 200, .call, .buy, 1, 1, 100, 0, 100, 0, 0, {}, none⟩]
            : List Deribit.OptionPosition).filter
          (fun p => !(decide (Deribit.isExpired 100 p))) ∧
    (Deribit.handleExpiries (fun _ => 120) 100
        { cash := 50, positions :=
            [⟨1, "E", "BTC", 100, 50, .call, .buy, 1, 1, 100, 0, 100, 0, 0, {}, none⟩,
             ⟨2, "L", "BTC", 100, 200, .call, .buy, 1, 1, 100, 0, 100, 0, 0, {}, none⟩] }).cash
      = 50 + ((([⟨1, "E", "BTC", 100, 50, .call, .buy, 1, 1, 100, 0, 100, 0, 0, {}, none⟩,
          ⟨2, "L", "BTC", 100, 200, .call, .buy, 1, 1, 100, 0, 100, 0, 0, {}, none⟩]
            : List Deribit.OptionPosition).filter
          (fun p => decide (Deribit.isExpired 100 p))).map
            (Deribit.settleCashOf (fun _ => 120))).sum ∧
    (Deribit.handleExpiries (fun _ => 120) 100
        { cash := 50, positions :=
            [⟨1, "E", "BTC", 100, 50, .call, .buy, 1, 1, 100, 0, 100, 0, 0, {}, none⟩,
             ⟨2, "L", "BTC", 100, 200, .call, .buy, 1, 1, 100, 0, 100, 0, 0, {}, none⟩] }).trades
      = [] ++ (([⟨1, "E", "BTC", 100, 50, .call, .buy, 1, 1, 100, 0, 100, 0, 0, {}, none⟩,
          ⟨2, "L", "BTC", 100, 200, .call, .buy, 1, 1, 100, 0, 100, 0, 0, {}, none⟩]
            : List Deribit.OptionPosition).filter
          (fun p => decide (Deribit.isExpired 100 p))).map
            (Deribit.expiryRecordOf (fun _ => 120)) :=
  C4_expiry_settlement (fun _ => 120) 100
    { cash := 50, positions :=
        [⟨1, "E", "BTC", 100, 50, .call, .buy, 1, 1, 100, 0, 100, 0, 0, {}, none⟩,
         ⟨2, "L", "BTC", 100, 200, .call, .buy, 1, 1, 100, 0, 100, 0, 0, {}, none⟩] }
    (by decide)

/-! ### C5 — paper round-trip scenario S1 -/

/-- C5 counterexample: the paper round trip of scenario S1 ends with cash
`$10,008.485005`, more than `$9.9` below the `≈ $10,018.4` the claim states
(indeed the claimed PnL of `≈ $18.4` exceeds the `$10` gross price gain). -/
theorem C5_counterexample :
    (Paper.executePaperOrder
        (Paper.executePaperOrder (Paper.initialPaper 10000)
          (Paper.marketOrder "BTC/USDT" .buy (1 / 100)) (some 50000)).2
        (Paper.marketOrder "BTC/USDT" .sell (1 / 100)) (some 51000)).2.balance "USDT"
      = 2001697001 / 200000 ∧
    (50092 / 5 : ℚ) - 2001697001 / 200000 > 9 := by
  constructor
  · norm_num [Paper.executePaperOrder, Paper.marketOrder, Paper.initialPaper,
      Paper.updMap, Paper.slippage, Paper.commissionRate,
      show Paper.OrderSide.sell ≠ Paper.OrderSide.buy from by decide,
      show SpotRisk.baseAsset "BTC/USDT" = "BTC" from by decide,
      show Paper.quoteAsset "BTC/USDT" = "USDT" from by decide]
  · norm_num

/-! ### C7 — trade scoring in the stateless check runner -/

theorem roundTo_tenths (m : ℤ) :
    Pricing.roundTo ((m : ℚ) / 10) 2 = (m : ℚ) / 10 := by
  unfold Pricing.roundTo
  have h : ((m : ℚ) / 10) * 10 ^ 2 = ((10 * m : ℤ) : ℚ) := by push_cast; ring
  rw [h, round_intCast]
  push_cast
  ring

theorem tenths_add {x y : ℚ} (hx : ∃ m : ℤ, x = m / 10)
    (hy : ∃ n : ℤ, y = n / 10) : ∃ k : ℤ, x + y = k / 10 := by
  obtain ⟨m, hm⟩ := hx
  obtain ⟨n, hn⟩ := hy
  exact ⟨m + n, by rw [hm, hn]; push_cast; ring⟩

theorem strikeAdjSpec_tenths (a : CheckOptions.ProposedAction)
    (existing : List CheckOptions.PosEntry) (spot : ℚ) :
    ∃ m : ℤ, CheckOptions.strikeAdjSpec a existing spot = m / 10 := by
  simp only [CheckOptions.strikeAdjSpec]
  split_ifs
  · exact ⟨4, by norm_num⟩
  · exact ⟨2, by norm_num⟩
  · exact ⟨-3, by norm_num⟩
  · exact ⟨0, by norm_num⟩

theorem expiryAdjSpec_tenths (a : CheckOptions.ProposedAction)
    (existing : List CheckOptions.PosEntry) :
    ∃ m : ℤ, CheckOptions.expiryAdjSpec a existing = m / 10 := by
  simp only [CheckOptions.expiryAdjSpec]
  split_ifs
  · exact ⟨-1, by norm_num⟩
  · exact ⟨3, by norm_num⟩

theorem deltaAdjSpec_tenths (a : CheckOptions.ProposedAction)
    (existing : List CheckOptions.PosEntry) :
    ∃ m : ℤ, CheckOptions.deltaAdjSpec a existing = m / 10 := by
  simp only [CheckOptions.deltaAdjSpec]
  split_ifs
  · exact ⟨-3, by norm_num⟩
  · exact ⟨2, by norm_num⟩
  · exact ⟨0, by norm_num⟩

theorem premiumAdjSpec_tenths (a : CheckOptions.ProposedAction)
    (existing : List CheckOptions.PosEntry) :
    ∃ m : ℤ, CheckOptions.premiumAdjSpec a existing = m / 10 := by
  simp only [CheckOptions.premiumAdjSpec]
  split_ifs
  · exact ⟨1, by norm_num⟩
  · exact ⟨0, by norm_num⟩

theorem scoreRaw_eq_sum (a : CheckOptions.ProposedAction)
    (existing : List CheckOptions.PosEntry) (spot : ℚ) :
    CheckOptions.scoreRaw a existing spot
      = 1 / 2 + CheckOptions.strikeAdjSpec a existing spot +
        CheckOptions.expiryAdjSpec a existing +
        CheckOptions.deltaAdjSpec a existing +
        CheckOptions.premiumAdjSpec a existing := by
  have hstrike : ∀ s : ℚ, CheckOptions.strikeScore a existing spot s
      = s + CheckOptions.strikeAdjSpec a existing spot := by
    intro s
    simp only [CheckOptions.strikeScore, CheckOptions.strikeAdjSpec]
    split_ifs <;> ring
  have hexpiry : ∀ s : ℚ, CheckOptions.expiryScore a existing s
      = s + CheckOptions.expiryAdjSpec a existing := by
    intro s
    simp only [CheckOptions.expiryScore, CheckOptions.expiryAdjSpec]
    split_ifs <;> ring
  have hdelta : ∀ s : ℚ, CheckOptions.deltaScore a existing s
      = s + CheckOptions.deltaAdjSpec a existing := by
    intro s
    simp only [CheckOptions.deltaScore, CheckOptions.deltaAdjSpec]
    split_ifs <;> ring
  have hprem : ∀ s : ℚ, CheckOptions.premiumScore a existing s
      = s + CheckOptions.premiumAdjSpec a existing := by
    intro s
    simp only [CheckOptions.premiumScore, CheckOptions.premiumAdjSpec]
    split_ifs <;> first | ring1 | simp_all
  rw [CheckOptions.scoreRaw, hprem, hdelta, hexpiry, hstrike]

/-- C7: `score_new_trade` returns exactly 1.0 on an empty position list, and
otherwise 0.5 plus the four independent adjustments of the claim (strike
distance, expiry overlap, delta impact, sell-premium efficiency); the
runner emits an action exactly when its score reaches the 0.3 threshold. -/
theorem C7_trade_scoring (a : CheckOptions.ProposedAction)
    (existing : List CheckOptions.PosEntry) (spot : ℚ)
    (actions : List CheckOptions.ProposedAction) :
    CheckOptions.scoreNewTrade a existing spot
      = CheckOptions.scoreSpec a existing spot ∧
    (∀ x, x ∈ CheckOptions.scoredActions actions existing spot ↔
      x ∈ actions ∧
        CheckOptions.minScoreThreshold ≤ CheckOptions.scoreNewTrade x existing spot) := by
  constructor
  · by_cases hemp : existing = []
    · rw [hemp]
      rfl
    · have hsum : ∃ k : ℤ, CheckOptions.scoreRaw a existing spot = k / 10 := by
        rw [scoreRaw_eq_sum]
        refine tenths_add (tenths_add (tenths_add (tenths_add ⟨5, by norm_num⟩
          (strikeAdjSpec_tenths a existing spot)) (expiryAdjSpec_tenths a existing))
          (deltaAdjSpec_tenths a existing)) (premiumAdjSpec_tenths a existing)
      obtain ⟨k, hk⟩ := hsum
      rw [CheckOptions.scoreNewTrade, CheckOptions.scoreSpec, if_neg hemp,
        if_neg hemp, hk, roundTo_tenths, ← hk, scoreRaw_eq_sum]
  · intro x
    simp [CheckOptions.scoredActions, List.mem_filter]

theorem C7_trade_scoring_witness :
    CheckOptions.scoreNewTrade
        { action := "buy", option_type := "call", strike := 100,
          expiry := "2026-01-30", delta := 1 / 2, premium_usd := 50 }
        [] 100 = 1 := by
  have h := (C7_trade_scoring
    { action := "buy", option_type := "call", strike := 100,
      expiry := "2026-01-30", delta := 1 / 2, premium_usd := 50 }
    [] 100 []).1
  rw [h]
  simp [CheckOptions.scoreSpec]

/-! ### C9 — edge-triggered signals -/

theorem band_left {a b : Bool} (h : (a && b) = true) : a = true := by
  cases a <;> simp_all

theorem oGT_oLE_false {x y : Option ℚ} (h1 : Strategies.oGT x y = true)
    (h2 : Strategies.oLE x y = true) : False := by
  cases x <;> cases y <;> simp [Strategies.oGT, Strategies.oLE] at h1 h2
  exact absurd h1 (not_lt.mpr h2)

theorem oLT_oGE_false {x y : Option ℚ} (h1 : Strategies.oLT x y = true)
    (h2 : Strategies.oGE x y = true) : False := by
  cases x <;> cases y <;> simp [Strategies.oLT, Strategies.oGE] at h1 h2
  exact absurd h1 (not_lt.mpr h2)

theorem crossUp_succ (a th : Strategies.Col) (i : ℕ)
    (h : Strategies.crossUp a th i = true) :
    Strategies.crossUp a th (i + 1) = false := by
  have hgt : Strategies.oGT (a i) (th i) = true := band_left h
  show (Strategies.oGT (a (i + 1)) (th (i + 1)) &&
    Strategies.oLE (a i) (th i)) = false
  cases hle : Strategies.oLE (a i) (th i)
  · simp
  · exact absurd (oGT_oLE_false hgt hle) (by simp)

theorem crossDown_succ (a th : Strategies.Col) (i : ℕ)
    (h : Strategies.crossDown a th i = true) :
    Strategies.crossDown a th (i + 1) = false := by
  have hlt : Strategies.oLT (a i) (th i) = true := band_left h
  show (Strategies.oLT (a (i + 1)) (th (i + 1)) &&
    Strategies.oGE (a i) (th i)) = false
  cases hge : Strategies.oGE (a i) (th i)
  · simp
  · exact absurd (oLT_oGE_false hlt hge) (by simp)

theorem crossUpC_succ (a : Strategies.Col) (c : ℚ) (i : ℕ)
    (h : Strategies.crossUpC a c i = true) :
    Strategies.crossUpC a c (i + 1) = false := by
  have hgt : Strategies.oGT (a i) (some c) = true := band_left h
  show (Strategies.oGT (a (i + 1)) (some c) &&
    Strategies.oLE (a i) (some c)) = false
  cases hle : Strategies.oLE (a i) (some c)
  · simp
  · exact absurd (oGT_oLE_false hgt hle) (by simp)

theorem crossDownC_succ (a : Strategies.Col) (c : ℚ) (i : ℕ)
    (h : Strategies.crossDownC a c i = true) :
    Strategies.crossDownC a c (i + 1) = false := by
  have hlt : Strategies.oLT (a i) (some c) = true := band_left h
  show (Strategies.oLT (a (i + 1)) (some c) &&
    Strategies.oGE (a i) (some c)) = false
  cases hge : Strategies.oGE (a i) (some c)
  · simp
  · exact absurd (oLT_oGE_false hlt hge) (by simp)

theorem posOfBool_mem (b : ℕ → Bool) (i : ℕ) :
    Strategies.posOfBool b i = 0 ∨ Strategies.posOfBool b i = 1 := by
  by_cases h : b i <;> simp [Strategies.posOfBool, h]

theorem diffSig_edge (p : ℕ → ℤ) (hp : ∀ i, p i = 0 ∨ p i = 1) :
    Strategies.edgeOK (Strategies.diffSig p) := by
  intro i
  constructor
  · rintro ⟨h1, h2⟩
    cases i with
    | zero => exact Option.noConfusion h1
    | succ j =>
        have hv1 : p (j + 1) - p j = 1 := Option.some.inj h1
        have hv2 : p (j + 2) - p (j + 1) = 1 := Option.some.inj h2
        rcases hp j with h | h <;> rcases hp (j + 1) with h' | h' <;>
          rcases hp (j + 2) with h'' | h'' <;> omega
  · rintro ⟨h1, h2⟩
    cases i with
    | zero => exact Option.noConfusion h1
    | succ j =>
        have hv1 : p (j + 1) - p j = -1 := Option.some.inj h1
        have hv2 : p (j + 2) - p (j + 1) = -1 := Option.some.inj h2
        rcases hp j with h | h <;> rcases hp (j + 1) with h' | h' <;>
          rcases hp (j + 2) with h'' | h'' <;> omega

theorem setSig_buy_of_one (buy sell : ℕ → Bool) (i : ℕ)
    (h : Strategies.setSig buy sell i = some 1) : buy i = true := by
  unfold Strategies.setSig at h
  split_ifs at h with hs hb
  · exact absurd h (by decide)
  · exact hb
  · exact absurd h (by decide)

theorem setSig_sell_of_negone (buy sell : ℕ → Bool) (i : ℕ)
    (h : Strategies.setSig buy sell i = some (-1)) : sell i = true := by
  unfold Strategies.setSig at h
  split_ifs at h with hs hb
  · exact hs
  · exact absurd h (by decide)
  · exact absurd h (by decide)

theorem setSig_edge (buy sell cu cd : ℕ → Bool)
    (hcu : ∀ i, cu i = true → cu (i + 1) = false)
    (hcd : ∀ i, cd i = true → cd (i + 1) = false)
    (hbuy : ∀ i, buy i = true → cu i = true)
    (hsell : ∀ i, sell i = true → cd i = true) :
    Strategies.edgeOK (Strategies.setSig buy sell) := by
  intro i
  constructor
  · rintro ⟨h1, h2⟩
    have hb1 := setSig_buy_of_one buy sell i h1
    have hb2 := setSig_buy_of_one buy sell (i + 1) h2
    have hfalse := hcu i (hbuy i hb1)
    rw [hbuy (i + 1) hb2] at hfalse
    exact absurd hfalse (by decide)
  · rintro ⟨h1, h2⟩
    have hs1 := setSig_sell_of_negone buy sell i h1
    have hs2 := setSig_sell_of_negone buy sell (i + 1) h2
    have hfalse := hcd i (hsell i hs1)
    rw [hsell (i + 1) hs2] at hfalse
    exact absurd hfalse (by decide)

/-- C9: every registered spot strategy is edge-triggered — for every
parameter set and every input series, the signal column never carries `+1`
on two consecutive bars, nor `−1` on two consecutive bars.  (The set-based
strategies fill all other bars with 0; the `.diff()`-based ones also carry
an undefined (NaN) signal at bar 0.) -/
theorem C9_edge_triggered_signals :
    (∀ (close : ℕ → ℚ) (fast slow : ℕ),
      Strategies.edgeOK (Strategies.smaCrossoverSignal close fast slow)) ∧
    (∀ (close : ℕ → ℚ) (fast slow : ℕ),
      Strategies.edgeOK (Strategies.emaCrossoverSignal close fast slow)) ∧
    (∀ (close : ℕ → ℚ) (period : ℕ) (overbought oversold : ℚ),
      Strategies.edgeOK (Strategies.rsiSignal close period overbought oversold)) ∧
    (∀ (sqrtF : ℚ → ℚ) (close : ℕ → ℚ) (period : ℕ) (num_std : ℚ),
      Strategies.edgeOK (Strategies.bollingerSignal sqrtF close period num_std)) ∧
    (∀ (close : ℕ → ℚ) (fast slow sig : ℕ),
      Strategies.edgeOK (Strategies.macdSignal close fast slow sig)) ∧
    (∀ (sqrtF : ℚ → ℚ) (close : ℕ → ℚ) (lookback : ℕ) (entry_std exit_std : ℚ),
      Strategies.edgeOK
        (Strategies.meanReversionSignal sqrtF close lookback entry_std exit_std)) ∧
    (∀ (close : ℕ → ℚ) (roc_period : ℕ) (threshold : ℚ),
      Strategies.edgeOK (Strategies.momentumSignal close roc_period threshold)) ∧
    (∀ (close volume : ℕ → ℚ) (sma_period : ℕ) (vol_multiplier : ℚ),
      Strategies.edgeOK
        (Strategies.volumeWeightedSignal close volume sma_period vol_multiplier)) ∧
    (∀ (close : ℕ → ℚ) (s m l : ℕ),
      Strategies.edgeOK (Strategies.tripleEmaSignal close s m l)) ∧
    (∀ (close : ℕ → ℚ) (rsi_p mf ms msig : ℕ),
      Strategies.edgeOK (Strategies.rsiMacdComboSignal close rsi_p mf ms msig)) ∧
    (∀ (sqrtF : ℚ → ℚ) (close : ℕ → ℚ) (closeB : Option (ℕ → ℚ)) (lookback : ℕ)
        (entry_z exit_z : ℚ),
      Strategies.edgeOK
        (Strategies.pairsSpreadSignal sqrtF close closeB lookback entry_z exit_z)) := by
  refine ⟨?_, ?_, ?_, ?_, ?_, ?_, ?_, ?_, ?_, ?_, ?_⟩
  · intro close fast slow
    exact diffSig_edge _ (posOfBool_mem _)
  · intro close fast slow
    exact diffSig_edge _ (posOfBool_mem _)
  · intro close period ob os
    exact setSig_edge _ _ _ _ (crossUpC_succ _ os) (crossDownC_succ _ ob)
      (fun _ h => h) (fun _ h => h)
  · intro sqrtF close period k
    exact setSig_edge _ _ _ _ (crossUp_succ _ _) (crossDown_succ _ _)
      (fun _ h => h) (fun _ h => h)
  · intro close f s sp
    exact diffSig_edge _ (posOfBool_mem _)
  · intro sqrtF close lb es xs
    exact setSig_edge _ _ _ _ (crossUpC_succ _ (-es)) (crossDownC_succ _ xs)
      (fun _ h => h) (fun _ h => h)
  · intro close rp th
    exact setSig_edge _ _ _ _ (crossUpC_succ _ th) (crossDownC_succ _ (-th))
      (fun _ h => h) (fun _ h => h)
  · intro close volume sp vm
    exact setSig_edge _ _ _ _ (crossUp_succ _ _) (crossDown_succ _ _)
      (fun _ h => band_left h) (fun _ h => band_left h)
  · intro close s m l
    exact diffSig_edge _ (posOfBool_mem _)
  · intro close rp mf ms msig
    exact setSig_edge _ _ _ _ (crossUp_succ _ _) (crossDown_succ _ _)
      (fun _ h => band_left h) (fun _ h => band_left h)
  · intro sqrtF close closeB lb ez xz
    exact setSig_edge _ _ _ _ (crossUpC_succ _ (-ez)) (crossDownC_succ _ xz)
      (fun _ h => h) (fun _ h => h)

theorem C9_edge_triggered_signals_witness :
    Strategies.edgeOK (Strategies.momentumSignal
      (fun i => if i ≤ 1 then 100 else 110) 1 5) ∧
    Strategies.momentumSignal (fun i => if i ≤ 1 then 100 else 110) 1 5 2
      = some 1 := by
  constructor
  · exact C9_edge_triggered_signals.2.2.2.2.2.2.1
      (fun i => if i ≤ 1 then 100 else 110) 1 5
  · norm_num [Strategies.momentumSignal, Strategies.setSig, Strategies.crossUpC,
      Strategies.crossDownC, Strategies.rocQ, Strategies.shift1,
      Strategies.oGT, Strategies.oLE, Strategies.oLT, Strategies.oGE]

/-! ### C6 — Greeks at expiry / nonpositive volatility -/

/-- C6 counterexample: the Deribit adapter's copy of `bs_greeks` returns a
delta of `1` (not `0`) for an in-the-money call at expiry. -/
theorem C6_counterexample :
    (Deribit.adapterBsGreeks Deribit.idFloatFuns 110 100 0 (5 / 100) (1 / 2)
        .call).delta = 1 ∧
    (Deribit.adapterBsGreeks Deribit.idFloatFuns 110 100 0 (5 / 100) (1 / 2)
        .call).delta ≠ 0 := by
  constructor <;> norm_num [Deribit.adapterBsGreeks]

/-- C6 (amended): at expiry or with nonpositive volatility the shared pricing
kernel's `bs_greeks` returns all-zero Greeks, while the Deribit adapter's
copy zeroes gamma, theta and vega but reports delta `+1` for an ITM call,
`−1` for an ITM put and `0` otherwise (with `iv = σ`). -/
theorem C6_expiry_greeks (ff : Pricing.FloatFuns)
    (spot strike dte vol rf S K T r sigma : ℚ) (otype : String)
    (aot : Deribit.OptionType)
    (h1 : dte ≤ 0 ∨ vol ≤ 0) (h2 : T ≤ 0 ∨ sigma ≤ 0) :
    Pricing.bs_greeksShared ff spot strike dte vol rf otype = ⟨0, 0, 0, 0⟩ ∧
    (Deribit.adapterBsGreeks ff S K T r sigma aot).gamma = 0 ∧
    (Deribit.adapterBsGreeks ff S K T r sigma aot).theta = 0 ∧
    (Deribit.adapterBsGreeks ff S K T r sigma aot).vega = 0 ∧
    (Deribit.adapterBsGreeks ff S K T r sigma aot).iv = sigma ∧
    (Deribit.adapterBsGreeks ff S K T r sigma aot).delta
      = (if 0 < (if aot = .call then max (S - K) 0 else max (K - S) 0) then
          (if aot = .call then (1 : ℚ) else -1) else 0) := by
  have h1' : dte ≤ 0 ∨ vol ≤ 0 ∨ spot ≤ 0 := by tauto
  refine ⟨?_, ?_⟩
  · simp only [Pricing.bs_greeksShared]
    rw [if_pos h1']
  · cases aot <;> simp [Deribit.adapterBsGreeks, h2]

theorem C6_expiry_greeks_witness :
    Pricing.bs_greeksShared Deribit.idFloatFuns 100 90 0 (1 / 2) (5 / 100) "call"
        = ⟨0, 0, 0, 0⟩ ∧
    (Deribit.adapterBsGreeks Deribit.idFloatFuns 90 100 (-1) (5 / 100) (1 / 2)
        .put).delta
      = (if 0 < (if Deribit.OptionType.put = .call then max ((90 : ℚ) - 100) 0
            else max ((100 : ℚ) - 90) 0) then
          (if Deribit.OptionType.put = .call then (1 : ℚ) else -1) else 0) := by
  have h := C6_expiry_greeks Deribit.idFloatFuns 100 90 0 (1 / 2) (5 / 100)
    90 100 (-1) (5 / 100) (1 / 2) "call" .put
    (Or.inl (by norm_num)) (Or.inl (by norm_num))
  exact ⟨h.1, h.2.2.2.2.2⟩

/-- C5 (amended): with cash `$10,000`, a paper market buy of `0.01` BTC at
last `$50,000` fills at `50,000·1.0005`, leaving base position `0.01` and
cash `$9,499.24975 ≈ $9,499.25`; the subsequent market sell of `0.01` at
last `$51,000` fills at `51,000·0.9995`, leaving final cash
`$10,008.485005 ≈ $10,008.49` and PnL `$8.485005 ≈ $8.49`, net of 5 bps
slippage and 10 bps commission on each leg. -/
theorem C5_paper_round_trip :
    (Paper.executePaperOrder (Paper.initialPaper 10000)
        (Paper.marketOrder "BTC/USDT" .buy (1 / 100)) (some 50000)).2.balance "USDT"
      = 37996999 / 4000 ∧
    (Paper.executePaperOrder (Paper.initialPaper 10000)
        (Paper.marketOrder "BTC/USDT" .buy (1 / 100)) (some 50000)).2.positions "BTC"
      = 1 / 100 ∧
    (Paper.executePaperOrder (Paper.initialPaper 10000)
        (Paper.marketOrder "BTC/USDT" .buy (1 / 100)) (some 50000)).1.status
      = Paper.OrderStatus.filled ∧
    (Paper.executePaperOrder
        (Paper.executePaperOrder (Paper.initialPaper 10000)
          (Paper.marketOrder "BTC/USDT" .buy (1 / 100)) (some 50000)).2
        (Paper.marketOrder "BTC/USDT" .sell (1 / 100)) (some 51000)).2.balance "USDT"
      = 2001697001 / 200000 ∧
    (Paper.executePaperOrder
        (Paper.executePaperOrder (Paper.initialPaper 10000)
          (Paper.marketOrder "BTC/USDT" .buy (1 / 100)) (some 50000)).2
        (Paper.marketOrder "BTC/USDT" .sell (1 / 100)) (some 51000)).2.positions "BTC"
      = 0 ∧
    (2001697001 / 200000 : ℚ) - 10000 = 1697001 / 200000 := by
  refine ⟨?_, ?_, ?_, ?_, ?_, by norm_num⟩ <;>
    norm_num [Paper.executePaperOrder, Paper.marketOrder, Paper.initialPaper,
      Paper.updMap, Paper.slippage, Paper.commissionRate,
      show Paper.OrderSide.sell ≠ Paper.OrderSide.buy from by decide,
      show SpotRisk.baseAsset "BTC/USDT" = "BTC" from by decide,
      show Paper.quoteAsset "BTC/USDT" = "USDT" from by decide]


